import Mathlib

/-!
Verification development for the phone-reservation webhook engine: a shallow
embedding of the VAPI webhook router module (tenant resolution, availability
oracle, reservation lifecycle, side-effect fan-out, call-log upsert, time
normalization) and of the calendar service's free-slot search, together with
theorems settling the specification claims.

External collaborators (Supabase row store, Google Calendar, HubSpot CRM,
email notifier, RAG service) are modelled through an explicit environment
`Env` supplying each call's outcome (`Except`: a thrown error or a value),
and the row store is modelled as an in-memory `DB` threaded through a
state-with-exceptions monad `M` so that an exception escaping a handler
leaves the mutations performed so far in place, as the real store does.
-/

namespace TableNow

/-- JS truthiness of an optional string: a missing value and `""` are falsy. -/
def truthyS : Option String → Bool
  | none => false
  | some s => s ≠ ""

/-- JS `a || b` over optional strings. -/
def jsOrS (a b : Option String) : Option String := if truthyS a then a else b

/-- JS `a || ''`. -/
def orEmptyS (a : Option String) : String :=
  match a with
  | some s => s
  | none => ""

/-!  ## Time normalization (`normalizeTime` of the webhook module)  -/

/-- The anchored regex `^\d{2}:\d{2}$`. -/
def isHHMM : List Char → Bool
  | [a, b, ':', c, d] => a.isDigit && b.isDigit && c.isDigit && d.isDigit
  | _ => false

/-- JS `\s` on the ASCII range, for the `\s*` in the meridiem regex. -/
def isJsSpace (c : Char) : Bool :=
  c = ' ' || c = '\t' || c = '\n' || c = '\r' || c = '\x0b' || c = '\x0c'

/-- The optional group `\s*(AM|PM|am|pm)?` applied to the text after the
minutes: greedy whitespace skip, then a case-sensitive alternation. -/
def parseMer (l : List Char) : Option (List Char) :=
  match l.dropWhile isJsSpace with
  | 'A' :: 'M' :: _ => some ['A', 'M']
  | 'P' :: 'M' :: _ => some ['P', 'M']
  | 'a' :: 'm' :: _ => some ['a', 'm']
  | 'p' :: 'm' :: _ => some ['p', 'm']
  | _ => none

/-- One attempt of `(\d{1,2}):(\d{2})` with a one-digit hour. -/
def matchAt1 : List Char → Option (List Char × List Char × List Char)
  | a :: ':' :: c :: d :: r =>
      if a.isDigit && c.isDigit && d.isDigit then some ([a], [c, d], r) else none
  | _ => none

/-- One attempt of `(\d{1,2}):(\d{2})` at the head of the list: the greedy
`\d{1,2}` tries a two-digit hour first and backtracks to one digit. -/
def matchAt : List Char → Option (List Char × List Char × List Char)
  | a :: b :: ':' :: c :: d :: r =>
      if a.isDigit && b.isDigit && c.isDigit && d.isDigit then some ([a, b], [c, d], r)
      else matchAt1 (a :: b :: ':' :: c :: d :: r)
  | l => matchAt1 l

/-- Leftmost search of the unanchored regex
`(\d{1,2}):(\d{2})\s*(AM|PM|am|pm)?`, as JS `String.prototype.match` does. -/
def scanMatch : List Char → Option (List Char × List Char × Option (List Char))
  | [] => none
  | a :: t =>
      match matchAt (a :: t) with
      | some (hh, mm, r) => some (hh, mm, parseMer r)
      | none => scanMatch t

/-- JS `parseInt(hh, 10)` on a captured digit group. -/
def parseIntDigits (l : List Char) : Nat :=
  l.foldl (fun a c => a * 10 + (c.toNat - 48)) 0

/-- JS `String.prototype.padStart(2, '0')`. -/
def pad2 (s : String) : String :=
  if s.length < 2 then String.mk (List.replicate (2 - s.length) '0') ++ s else s

/-- `normalizeTime` of the webhook module.  Absent input is returned as-is;
an exact 24-hour `HH:MM` passes through; otherwise the first
`(\d{1,2}):(\d{2})\s*(AM|PM|am|pm)?` match is converted (12 AM to hour 00,
PM hours below 12 add 12); a string with no match is returned unchanged. -/
def normalizeTime : Option String → Option String
  | none => none
  | some timeStr =>
      if timeStr = "" then some timeStr
      else if isHHMM timeStr.toList then some timeStr
      else
        match scanMatch timeStr.toList with
        | none => some timeStr
        | some (hh, mm, mer) =>
            let hour := parseIntDigits hh
            let hour :=
              match mer with
              | some m =>
                  let upper := m.map Char.toUpper
                  if upper = ['P', 'M'] && hour < 12 then hour + 12
                  else if upper = ['A', 'M'] && hour = 12 then 0
                  else hour
              | none => hour
            some (pad2 (Nat.repr hour) ++ ":" ++ String.mk mm)

/-!  ## Data model: the row store  -/

/-- A tenant (restaurants table). -/
structure Restaurant where
  id : String
  name : Option String := none
  email : Option String := none
  vapi_phone_id : Option String := none
  vapi_phone_number : Option String := none
  vapi_assistant_id : Option String := none
  capacity : Option Int := none
  google_calendar_tokens : Option String := none
deriving Repr, DecidableEq

/-- A reservation (bookings table). -/
structure Booking where
  id : String
  restaurant_id : String
  guest_name : Option String := none
  guest_email : Option String := none
  guest_phone : Option String := none
  booking_date : Option String := none
  booking_time : Option String := none
  party_size : Option Int := none
  special_requests : Option String := none
  confirmation_number : String
  status : String
  source : String := "phone"
  calendar_event_id : Option String := none
  hubspot_deal_id : Option String := none
deriving Repr, DecidableEq

/-- A call log row (call_logs table). -/
structure CallLog where
  restaurant_id : String
  call_id : Option String := none
  caller_number : Option String := none
  status : String
  duration : Option Int := none
  transcript : Option String := none
  recording_url : Option String := none
  started_at : Option String := none
  ended_at : Option String := none
deriving Repr, DecidableEq

/-- The whole row store. -/
structure DB where
  restaurants : List Restaurant := []
  bookings : List Booking := []
  call_logs : List CallLog := []
deriving Repr, DecidableEq

/-!  ## Effect monad: state (the store) + exceptions

An exception unwinds to the nearest enclosing catch but leaves the store
mutations performed so far in place, exactly as a thrown JS error does with
an external database. -/

/-- Outcome of a handler step: a value or a thrown error, with the store. -/
inductive Thr (α : Type) where
  | ok (a : α) (db : DB)
  | exn (msg : String) (db : DB)
deriving Repr

/-- The handler monad. -/
def M (α : Type) : Type := DB → Thr α

instance : Monad M where
  pure a := fun db => .ok a db
  bind m f := fun db =>
    match m db with
    | .ok a db2 => f a db2
    | .exn e db2 => .exn e db2

/-- JS `throw`. -/
def throwM {α : Type} (e : String) : M α := fun db => .exn e db

/-- JS `try { m } catch (e) { h e }`. -/
def tryM {α : Type} (m : M α) (h : String → M α) : M α := fun db =>
  match m db with
  | .ok a db2 => .ok a db2
  | .exn e db2 => h e db2

/-- An awaited external call with outcome `e`: its error is thrown. -/
def callExc {α : Type} (e : Except String α) : M α := fun db =>
  match e with
  | .ok a => .ok a db
  | .error msg => .exn msg db

/-- Read the store. -/
def getDb : M DB := fun db => .ok db db

/-- Replace the store. -/
def setDb (d : DB) : M Unit := fun _ => .ok () d

/-!  ## Store operations (Supabase calls; these never throw) -/

/-- PostgREST `.single()`: the row when exactly one is produced, else null. -/
def listSingle {α : Type} : List α → Option α
  | [x] => some x
  | _ => none

/-- `.select('*').eq(...).single()`: a value only when exactly one row
matches; zero or several matches make `.single()` report an error, which the
callers read as a null row. -/
def findSingle {α : Type} (p : α → Bool) (l : List α) : Option α :=
  listSingle (l.filter p)

def selectRestaurantSingle (p : Restaurant → Bool) : M (Option Restaurant) := do
  let db ← getDb
  pure (findSingle p db.restaurants)

def selectBookingSingle (p : Booking → Bool) : M (Option Booking) := do
  let db ← getDb
  pure (findSingle p db.bookings)

def insertCallLog (row : CallLog) : M Unit := do
  let db ← getDb
  setDb { db with call_logs := db.call_logs ++ [row] }

/-- `.update(fields).eq(filters).select()`: mutate every matching row and
return the updated rows. -/
def updateCallLogsWhere (p : CallLog → Bool) (f : CallLog → CallLog) : M (List CallLog) := do
  let db ← getDb
  setDb { db with call_logs := db.call_logs.map (fun cl => if p cl then f cl else cl) }
  pure ((db.call_logs.filter p).map f)

/-- `.update(fields).eq(filters).select()` on bookings. -/
def updateBookingsWhere (p : Booking → Bool) (f : Booking → Booking) : M (List Booking) := do
  let db ← getDb
  setDb { db with bookings := db.bookings.map (fun b => if p b then f b else b) }
  pure ((db.bookings.filter p).map f)

/-- `.insert(row).select().single()` on bookings: `none` models a store-level
insert error (the caller checks `error` and reports a failure result). -/
def insertBooking (fails : Bool) (b : Booking) : M (Option Booking) := do
  if fails then pure none
  else do
    let db ← getDb
    setDb { db with bookings := db.bookings ++ [b] }
    pure (some b)

/-!  ## External collaborators: the environment

One request's view of the outside world.  Each field is the outcome the
corresponding external call would have during this request: `.ok v` for a
normal return, `.error e` for a thrown error.  Times handed to the calendar
are minutes from local midnight. -/

structure Env where
  /-- `JSON.parse(restaurant.google_calendar_tokens)`. -/
  parseTokens : Except String Unit := .ok ()
  /-- The freebusy query inside `calendarService.checkAvailability`
  (busy intervals covering the requested 1-hour window). -/
  calBusyWindow : Except String (List (Nat × Nat)) := .ok []
  /-- The whole-day freebusy query inside `calendarService.findAvailableSlots`. -/
  calBusyDay : Except String (List (Nat × Nat)) := .ok []
  /-- `calendarService.createEvent`, returning the new event's id. -/
  calCreate : Except String String := .ok "gcal-event-1"
  /-- `calendarService.updateEvent`. -/
  calUpdate : Except String Unit := .ok ()
  /-- `calendarService.deleteEvent`. -/
  calDelete : Except String Unit := .ok ()
  /-- `emailService.sendBookingConfirmation` (guest notification). -/
  mailGuest : Except String Unit := .ok ()
  /-- `emailService.sendRestaurantNotification` (tenant notification). -/
  mailRestaurant : Except String Unit := .ok ()
  /-- `hubspotService.upsertContact`. -/
  hubUpsertContact : Except String Unit := .ok ()
  /-- `hubspotService.createDeal`, returning `deal?.id`. -/
  hubCreateDeal : Except String (Option String) := .ok none
  /-- `hubspotService.updateDealStatus`. -/
  hubUpdateDealStatus : Except String Unit := .ok ()
  /-- `hubspotService.logActivity`. -/
  hubLogActivity : Except String Unit := .ok ()
  /-- `ragService.generateAnswer`. -/
  ragAnswer : Except String String := .ok ""
  /-- The id the store assigns to a row inserted into bookings. -/
  newBookingId : String := "bk-1"
  /-- A store-level error on the bookings insert. -/
  insertError : Bool := false
  /-- A store-level error on the cancel status update. -/
  cancelUpdateError : Bool := false
  /-- `new Date().toISOString()`. -/
  now : String := "2026-01-01T00:00:00.000Z"
  /-- `Date.now()` used in the confirmation number. -/
  nowMs : Nat := 1767225600000
  /-- `Math.random().toString(36).substr(2, 6).toUpperCase()`. -/
  rand6 : String := "A1B2C3"
  /-- The started-at timestamp synthesized from `Date.now()` minus the call
  duration when the ended event carries no `startedAt`. -/
  synthStartedAt : String := "2026-01-01T00:00:00.000Z"
deriving Repr

/-!  ## Calendar service (server.ts) -/

/-- `calendarService.checkAvailability`: freebusy on the requested window,
available when the busy list is empty; a query error is rethrown. -/
def calCheckAvailability (env : Env) : Except String Bool :=
  match env.calBusyWindow with
  | .ok busy => .ok busy.isEmpty
  | .error e => .error e

/-- The while-loop of `findAvailableSlots`: candidate 1-hour windows starting
every 30 minutes from 09:00 (540) while the start is before 22:00 (1320); a
candidate is kept when it overlaps no busy interval
(`currentSlot < busyEnd && endSlot > busyStart`). -/
def slotLoop (busy : List (Nat × Nat)) (cur : Nat) : List Nat :=
  if cur < 1320 then
    if busy.any (fun b => cur < b.2 && cur + 60 > b.1) then slotLoop busy (cur + 30)
    else cur :: slotLoop busy (cur + 30)
  else []
termination_by 1320 - cur

/-- `calendarService.findAvailableSlots`: all free 1-hour slots of the day
between 09:00 and 22:00, as start minutes; a query error is caught inside the
service and yields the empty list. -/
def findAvailableSlots (env : Env) : List Nat :=
  match env.calBusyDay with
  | .ok busy => slotLoop busy 540
  | .error _ => []

/-- Rendering of a slot start for the suggestion message (models
`toLocaleTimeString` with 2-digit hour and minute). -/
def fmtTime (m : Nat) : String :=
  pad2 (Nat.repr (m / 60)) ++ ":" ++ pad2 (Nat.repr (m % 60))

/-!  ## Inbound events (the raw webhook payload, typed defensively) -/

structure PhoneObj where
  id : Option String := none
  number : Option String := none
deriving Repr, DecidableEq

structure CustomerObj where
  number : Option String := none
  email : Option String := none
deriving Repr, DecidableEq

structure CallObj where
  id : Option String := none
  assistantId : Option String := none
  phoneNumber : Option PhoneObj := none
  phone : Option PhoneObj := none
  customer : Option CustomerObj := none
  duration : Option Int := none
  startedAt : Option String := none
deriving Repr, DecidableEq

structure AssistantObj where
  id : Option String := none
  assistantId : Option String := none
deriving Repr, DecidableEq

structure RecObj where
  url : Option String := none
deriving Repr, DecidableEq

/-- Arguments of a tool invocation as the five named functions read them. -/
structure Params where
  date : Option String := none
  time : Option String := none
  partySize : Option Int := none
  guestName : Option String := none
  guestEmail : Option String := none
  guestPhone : Option String := none
  specialRequests : Option String := none
  confirmationNumber : Option String := none
  question : Option String := none
  id : Option String := none
  status : Option String := none
deriving Repr, DecidableEq

/-- A tool call's raw arguments: either a JSON-encoded string (carrying its
parse outcome: `none` models a `JSON.parse` throw) or a structured value. -/
inductive ArgVal where
  | str (raw : String) (parsed : Option Params)
  | obj (p : Params)
deriving Repr, DecidableEq

/-- JS truthiness of a raw argument value (an empty string is falsy). -/
def truthyA : Option ArgVal → Bool
  | none => false
  | some (.str raw _) => raw ≠ ""
  | some (.obj _) => true

/-- JS `a || b` over raw argument values. -/
def jsOrA (a b : Option ArgVal) : Option ArgVal := if truthyA a then a else b

structure ToolFn where
  name : Option String := none
  arguments : Option ArgVal := none
  input : Option ArgVal := none
deriving Repr, DecidableEq

structure ToolCall where
  id : Option String := none
  function : Option ToolFn := none
  name : Option String := none
  parameters : Option ArgVal := none
deriving Repr, DecidableEq

/-- An inbound webhook event (after unwrapping `message`). -/
structure Ev where
  type : String
  call : Option CallObj := none
  phoneNumber : Option PhoneObj := none
  phone : Option PhoneObj := none
  assistantId : Option String := none
  assistant : Option AssistantObj := none
  toolCalls : List ToolCall := []
  functionName : Option String := none
  parameters : Params := {}
  transcript : Option String := none
  recording : Option RecObj := none
deriving Repr, DecidableEq

/-- The raw request body: VAPI wraps events in `message`, or posts the event
itself (`req.body.message || req.body`). -/
structure Raw where
  message : Option Ev := none
  self : Ev
deriving Repr, DecidableEq

/-!  ## Responses -/

/-- A function-call result object (the union of the shapes the five named
functions return). -/
structure FnRes where
  success : Option Bool := none
  result : Option String := none
  message : Option String := none
  confirmationNumber : Option String := none
  answer : Option String := none
  error : Option String := none
deriving Repr, DecidableEq

structure ToolResultEntry where
  toolCallId : Option String
  result : FnRes
deriving Repr, DecidableEq

/-- The body of an HTTP response on the webhook path. -/
inductive RespBody where
  /-- `{received: true}`. -/
  | received
  /-- `{toolResults: [...]}` without the alias views (the empty-batch and
  tenant-not-found replies). -/
  | toolResultsOnly (trs : List ToolResultEntry)
  /-- The full tool payload: `toolResults` plus the `results`, first-`result`
  and legacy `tool_results` views, all derived from the same list. -/
  | toolResultsFull (trs : List ToolResultEntry)
  /-- A bare function result (`function-call` path). -/
  | fnResult (r : FnRes)
  /-- `{error: msg}`. -/
  | errorObj (msg : String)
deriving Repr, DecidableEq

structure Resp where
  status : Nat
  body : RespBody
deriving Repr, DecidableEq

/-- Template-literal interpolation of a possibly-undefined string. -/
def showS : Option String → String
  | some s => s
  | none => "undefined"

/-- Template-literal interpolation of a possibly-undefined number. -/
def showI : Option Int → String
  | some n => toString n
  | none => "undefined"

/-!  ## The five named functions -/

/-- JS `restaurant.capacity || 50`: 50 when capacity is absent or zero
(both falsy). -/
def effCapacity : Option Int → Int
  | none => 50
  | some c => if c = 0 then 50 else c

/-- The local tier of the availability oracle: party sizes of the tenant's
confirmed reservations for the requested date and time. -/
def localBookedSizes (db : DB) (restaurantId : String) (p : Params) : List Int :=
  (db.bookings.filter (fun b =>
    b.restaurant_id == restaurantId && b.booking_date == p.date &&
      b.booking_time == p.time && b.status == "confirmed")).map (fun b => b.party_size.getD 0)

/-- `checkAvailability` of the webhook module: tier 1 queries the calendar
when the tenant has a credential (a failure falls through); tier 2 compares
local capacity accounting; the outer catch converts any unexpected error into
an apology decision. -/
def checkAvailability (restaurantId : String) (r : Restaurant) (p : Params) (env : Env) :
    M FnRes :=
  tryM
    (do
      let tier1 ←
        if truthyS r.google_calendar_tokens then
          tryM
            (do
              callExc env.parseTokens
              let avail ← callExc (calCheckAvailability env)
              if avail then
                pure (some (true, ""))
              else
                let suggestions := findAvailableSlots env
                if suggestions.length > 0 then
                  pure (some (false,
                    "Sorry, that time is taken. However, we have availability at: " ++
                      String.intercalate ", " ((suggestions.take 3).map fmtTime) ++ "."))
                else
                  pure (some (false, "Sorry, we are fully booked on " ++ showS p.date ++ ".")))
            (fun _ => pure none)
        else pure none
      let res ←
        match tier1 with
        | some pr => pure pr
        | none => do
            let db ← getDb
            let totalBooked : Int := (localBookedSizes db restaurantId p).foldl (fun a x => a + x) 0
            let isAvailable :=
              match p.partySize with
              | some n => decide (effCapacity r.capacity - totalBooked ≥ n)
              | none => false
            pure (isAvailable, "")
      pure { result := some (if res.1 then "available" else "unavailable"),
             message := some (if res.1 then
                 "Yes, we have availability for " ++ showI p.partySize ++ " guests on " ++
                   showS p.date ++ " at " ++ showS p.time ++ "."
               else if res.2 ≠ "" then res.2
               else "Sorry, we don't have availability for " ++ showI p.partySize ++
                 " guests at that time.") })
    (fun _ => pure { result := some "error",
                     message := some "I am sorry, I cannot check availability right now due to a technical issue." })

/-- Section 2 of `createBooking`: the Google Calendar event creation inside
its own try/catch, persisting the returned event id onto the booking row. -/
def cbCalendarStep (r : Restaurant) (booking : Booking) (env : Env) : M Unit :=
  if truthyS r.google_calendar_tokens then
    tryM
      (do
        callExc env.parseTokens
        let evId ← callExc env.calCreate
        let _ ← updateBookingsWhere (fun b => b.id == booking.id)
          (fun b => { b with calendar_event_id := some evId })
        pure ())
      (fun _ => pure ())
  else pure ()

/-- Section 3 of `createBooking`: the guest and tenant notifications, awaited
with NO try/catch here (and `emailService` rethrows its own errors). -/
def cbMailStep (r : Restaurant) (p : Params) (env : Env) : M Unit := do
  if truthyS p.guestEmail then
    callExc env.mailGuest
  if truthyS r.email then
    callExc env.mailRestaurant

/-- Section 4 of `createBooking`: the HubSpot contact/deal creation inside
its own try/catch, persisting a truthy deal id onto the booking row
(`guestName.split` throws inside this try when the name is missing). -/
def cbHubStep (p : Params) (booking : Booking) (env : Env) : M Unit :=
  if truthyS p.guestEmail then
    tryM
      (do
        match p.guestName with
        | none => throwM "TypeError: guestName is undefined"
        | some _ => pure ()
        callExc env.hubUpsertContact
        let deal ← callExc env.hubCreateDeal
        if truthyS deal then
          let _ ← updateBookingsWhere (fun b => b.id == booking.id)
            (fun b => { b with hubspot_deal_id := deal })
          pure ())
      (fun _ => pure ())
  else pure ()

/-- `createBooking`: store the reservation, then fan out the calendar event
(caught), the guest and tenant notifications (NOT caught) and the CRM
contact/deal (caught). -/
def createBooking (restaurantId : String) (r : Restaurant) (p : Params) (env : Env) :
    M FnRes := do
  let normalizedTime := normalizeTime p.time
  let confirmationNumber := "TN-" ++ toString env.nowMs ++ "-" ++ env.rand6
  let ins ← insertBooking env.insertError
    { id := env.newBookingId, restaurant_id := restaurantId,
      guest_name := p.guestName, guest_email := p.guestEmail, guest_phone := p.guestPhone,
      booking_date := p.date, booking_time := normalizedTime, party_size := p.partySize,
      special_requests := p.specialRequests, confirmation_number := confirmationNumber,
      status := "confirmed", source := "phone" }
  match ins with
  | none => pure { success := some false, message := some "Failed to create booking. Please try again." }
  | some booking => do
      cbCalendarStep r booking env
      cbMailStep r p env
      cbHubStep p booking env
      pure { success := some true, confirmationNumber := some confirmationNumber,
             message := some ("Perfect! Your reservation is confirmed for " ++ showI p.partySize ++
               " guests on " ++ showS p.date ++ " at " ++ showS p.time ++
               ". Your confirmation number is " ++ confirmationNumber ++ ". " ++
               (if truthyS p.guestEmail then "A confirmation email has been sent to you." else "")) }

/-- The spread `const { confirmationNumber, ...updates } = params`. -/
def destructUpdates (p : Params) : Params := { p with confirmationNumber := none }

/-- Does the update payload name a key that is not a column of the bookings
table?  `updateBooking` passes the spread tool parameters through to the
store verbatim, and among them only `id` and `status` name real columns: the
schema has `booking_date`, `booking_time`, `party_size`, `guest_name`,
`guest_email`, `guest_phone` and `special_requests`, not the camelCase
`date`, `time`, `partySize`, `guestName`, `guestEmail`, `guestPhone`,
`specialRequests` (nor `question`). -/
def hasUnknownColumn (u : Params) : Bool :=
  u.date.isSome || u.time.isSome || u.partySize.isSome || u.guestName.isSome ||
    u.guestEmail.isSome || u.guestPhone.isSome || u.specialRequests.isSome || u.question.isSome

/-- The store writing an accepted update payload onto a reservation row:
only the keys naming real columns (`id`, `status`) can occur in an accepted
payload, and each present one overwrites its column. -/
def applyUpdates (u : Params) (b : Booking) : Booking :=
  { b with
    id := u.id.getD b.id,
    status := match u.status with | some s2 => s2 | none => b.status }

/-- `.update(payload).eq(...).select()` on the bookings table: the store
rejects the whole request when the payload names an unknown column — nothing
is written and no row comes back (the error outcome; after `.single()` it is
observationally the same as matching no row, and the caller only tests
`error || !booking`) — and otherwise writes and returns the matched rows. -/
def updateBookingsPayload (u : Params) (q : Booking → Bool) : M (List Booking) :=
  if hasUnknownColumn u then pure []
  else updateBookingsWhere q (applyUpdates u)

/-- The update payload of `updateBooking` after the destructuring spread and
the conditional time normalization. -/
def effUpdates (p : Params) : Params :=
  let updates0 := destructUpdates p
  if truthyS updates0.time then { updates0 with time := normalizeTime updates0.time }
  else updates0

/-- The side effects of `updateBooking`: the Google Calendar event update
and the CRM deal-stage update, each inside its own try/catch. -/
def ubFanout (r : Restaurant) (updates : Params) (booking : Booking) (env : Env) :
    M Unit := do
  if truthyS r.google_calendar_tokens && truthyS booking.calendar_event_id &&
      (truthyS updates.date || truthyS updates.time) then
    tryM (do callExc env.parseTokens; callExc env.calUpdate) (fun _ => pure ())
  if truthyS booking.hubspot_deal_id then
    tryM (callExc env.hubUpdateDealStatus) (fun _ => pure ())

/-- `updateBooking`: scoped update on (tenant, confirmation number) first,
then a fallback update by confirmation number alone, skipped when the payload
carries a truthy `id`; then the caught calendar and CRM effects. -/
def updateBooking (restaurantId : String) (r : Restaurant) (p : Params) (env : Env) :
    M FnRes := do
  let updates := effUpdates p
  let scopedRows ← updateBookingsPayload updates
    (fun b => b.restaurant_id == restaurantId && some b.confirmation_number == p.confirmationNumber)
  let booking0 := listSingle scopedRows
  let booking ←
    if booking0.isNone && !truthyS updates.id then do
      let fb ← updateBookingsPayload updates
        (fun b => some b.confirmation_number == p.confirmationNumber)
      pure (listSingle fb)
    else pure booking0
  match booking with
  | none => pure { success := some false, message := some "Booking not found or update failed." }
  | some booking => do
      ubFanout r updates booking env
      pure { success := some true, message := some "Your booking has been updated successfully." }

/-- The side effects of `cancelBooking`: the Google Calendar event deletion
and the CRM deal-stage update, each inside its own try/catch. -/
def canFanout (r : Restaurant) (booking : Booking) (env : Env) : M Unit := do
  if truthyS r.google_calendar_tokens && truthyS booking.calendar_event_id then
    tryM (do callExc env.parseTokens; callExc env.calDelete) (fun _ => pure ())
  if truthyS booking.hubspot_deal_id then
    tryM (callExc env.hubUpdateDealStatus) (fun _ => pure ())

/-- `cancelBooking`: scoped lookup with unconditional global fallback, status
set to cancelled (never a delete), then the caught calendar and CRM effects. -/
def cancelBooking (restaurantId : String) (r : Restaurant) (p : Params) (env : Env) :
    M FnRes := do
  let b1 ← selectBookingSingle
    (fun b => b.restaurant_id == restaurantId && some b.confirmation_number == p.confirmationNumber)
  let booking ←
    match b1 with
    | none => selectBookingSingle (fun b => some b.confirmation_number == p.confirmationNumber)
    | some b => pure (some b)
  match booking with
  | none => pure { success := some false, message := some "Booking not found." }
  | some booking =>
      if env.cancelUpdateError then
        pure { success := some false, message := some "Failed to cancel booking." }
      else do
        let _ ← updateBookingsWhere (fun b => b.id == booking.id)
          (fun b => { b with status := "cancelled" })
        canFanout r booking env
        pure { success := some true, message := some "Your booking has been cancelled successfully." }

/-- `answerQuestion`: RAG call with a caught failure. -/
def answerQuestion (restaurantId : String) (r : Restaurant) (p : Params) (env : Env) :
    M FnRes :=
  tryM
    (do
      let a ← callExc env.ragAnswer
      pure { success := some true, answer := some a })
    (fun _ =>
      pure { success := some false,
             answer := some "I apologize, but I am having trouble finding that information. Please contact the restaurant directly." })

/-- `executeFunctionCall`: the shared dispatcher over the five functions. -/
def executeFunctionCall (functionName : Option String) (restaurant : Restaurant)
    (p : Params) (env : Env) : M FnRes :=
  match functionName with
  | some "check_availability" => checkAvailability restaurant.id restaurant p env
  | some "create_booking" => createBooking restaurant.id restaurant p env
  | some "update_booking" => updateBooking restaurant.id restaurant p env
  | some "cancel_booking" => cancelBooking restaurant.id restaurant p env
  | some "answer_question" => answerQuestion restaurant.id restaurant p env
  | _ => pure { error := some "Unknown function" }

/-!  ## The webhook handlers -/

/-- The phone-keyed tenant resolution block shared by the call-started and
call-ended handlers: lookup by `vapi_phone_id` equal to `phoneId || ''`,
falling back to `vapi_phone_number` when nothing was found and a phone number
string is truthy. -/
def resolveByPhone (phoneId phoneNum : Option String) : M (Option Restaurant) := do
  let r1 ← selectRestaurantSingle (fun r => r.vapi_phone_id == some (orEmptyS phoneId))
  match r1 with
  | some r => pure (some r)
  | none =>
      if truthyS phoneNum then
        selectRestaurantSingle (fun r => r.vapi_phone_number == phoneNum)
      else pure none

/-- The tenant resolution block of `handleToolCalls`: lookup by
`vapi_assistant_id` equal to `assistantId || ''`, falling back to
`vapi_phone_id` when nothing was found and a phone id is truthy.  There is no
phone-number-string tier on this path. -/
def resolveByAssistant (assistantId phoneId : Option String) : M (Option Restaurant) := do
  let r1 ← selectRestaurantSingle (fun r => r.vapi_assistant_id == some (orEmptyS assistantId))
  match r1 with
  | some r => pure (some r)
  | none =>
      if truthyS phoneId then
        selectRestaurantSingle (fun r => r.vapi_phone_id == phoneId)
      else pure none

/-- `call?.assistantId || event.assistantId || event.assistant?.id ||
event.assistant?.assistantId` of `handleToolCalls`. -/
def assistantKey (ev : Ev) : Option String :=
  jsOrS (ev.call.bind (fun c => c.assistantId))
    (jsOrS ev.assistantId (jsOrS (ev.assistant.bind (fun a => a.id))
      (ev.assistant.bind (fun a => a.assistantId))))

/-- `event.phoneNumber?.id || call?.phoneNumber?.id` of `handleToolCalls`. -/
def phoneIdKey (ev : Ev) : Option String :=
  jsOrS (ev.phoneNumber.bind (fun ph => ph.id))
    (ev.call.bind (fun c => c.phoneNumber.bind (fun ph => ph.id)))

/-- One tool call of a `tool-calls` batch: name and raw arguments are read
defensively, a `JSON.parse` failure yields a per-call error without touching
the siblings, and the shared dispatcher is invoked otherwise. -/
def runToolCall (restaurant : Restaurant) (env : Env) (tc : ToolCall) : M ToolResultEntry := do
  let functionName := jsOrS (tc.function.bind (fun f => f.name)) tc.name
  let rawArgs := jsOrA (tc.function.bind (fun f => f.arguments))
    (jsOrA tc.parameters (jsOrA (tc.function.bind (fun f => f.input))
      (some (.str "\x7b\x7d" (some {})))))
  match rawArgs with
  | some (.str _ none) =>
      pure { toolCallId := tc.id, result := { error := some "Invalid parameters" } }
  | some (.str _ (some params)) => do
      let result ← executeFunctionCall functionName restaurant params env
      pure { toolCallId := tc.id, result := result }
  | some (.obj params) => do
      let result ← executeFunctionCall functionName restaurant params env
      pure { toolCallId := tc.id, result := result }
  | none => do
      let result ← executeFunctionCall functionName restaurant {} env
      pure { toolCallId := tc.id, result := result }

/-- The sequential loop over a tool-call batch. -/
def runToolCalls (restaurant : Restaurant) (env : Env) : List ToolCall → M (List ToolResultEntry)
  | [] => pure []
  | tc :: rest => do
      let e ← runToolCall restaurant env tc
      let es ← runToolCalls restaurant env rest
      pure (e :: es)

/-- `handleToolCalls`: tenant resolution by assistant id with a phone-id
fallback, per-call execution, and an own catch answering 500 on an escaped
error. -/
def handleToolCalls (ev : Ev) (env : Env) : M Resp :=
  tryM
    (do
      let toolCalls := ev.toolCalls
      if toolCalls.length == 0 then
        pure { status := 200, body := .toolResultsOnly [] }
      else do
        let restaurant ← resolveByAssistant (assistantKey ev) (phoneIdKey ev)
        match restaurant with
        | none =>
            pure { status := 200,
                   body := .toolResultsOnly (toolCalls.map (fun tc =>
                     { toolCallId := tc.id, result := { error := some "Restaurant not found" } })) }
        | some restaurant => do
            let toolResults ← runToolCalls restaurant env toolCalls
            pure { status := 200, body := .toolResultsFull toolResults })
    (fun _ => pure { status := 500, body := .errorObj "Tool handling failed" })

/-- `handleFunctionCall` (legacy single-call path): tenant resolution by
assistant id only, bare result object; `call.assistantId` is read without an
optional chain, so a missing call object throws to the router's catch. -/
def handleFunctionCall (ev : Ev) (env : Env) : M Resp := do
  match ev.call with
  | none => throwM "TypeError: cannot read assistantId of undefined"
  | some call => do
      let r1 ←
        match call.assistantId with
        | some aid => selectRestaurantSingle (fun r => r.vapi_assistant_id == some aid)
        | none => pure none
      match r1 with
      | none => pure { status := 200, body := .fnResult { error := some "Restaurant not found" } }
      | some restaurant => do
          let result ← executeFunctionCall ev.functionName restaurant ev.parameters env
          pure { status := 200, body := .fnResult result }

/-- `handleCallStarted`: tenant resolution by phone id then phone number,
then a call-log insert; `call.id` is read without an optional chain, so a
missing call object throws to the router's catch. -/
def handleCallStarted (ev : Ev) (env : Env) : M Unit := do
  let phoneId := jsOrS (ev.phoneNumber.bind (fun ph => ph.id))
    (ev.call.bind (fun c => c.phoneNumber.bind (fun ph => ph.id)))
  let phoneNum := jsOrS (ev.phoneNumber.bind (fun ph => ph.number))
    (ev.call.bind (fun c => c.phoneNumber.bind (fun ph => ph.number)))
  let restaurant ← resolveByPhone phoneId phoneNum
  match restaurant with
  | none => pure ()
  | some restaurant =>
      match ev.call with
      | none => throwM "TypeError: cannot read id of undefined"
      | some call =>
          insertCallLog { restaurant_id := restaurant.id, call_id := call.id,
                          caller_number := call.customer.bind (fun cu => cu.number),
                          status := "in_progress", started_at := some env.now }

/-- The phone-id key `handleCallEnded` extracts: for `end-of-call-report`
events the phone objects sit on the event itself, otherwise on the call. -/
def cePhoneId (ev : Ev) : Option String :=
  if ev.type == "end-of-call-report" then
    jsOrS (ev.phoneNumber.bind (fun ph => ph.id)) (ev.phone.bind (fun ph => ph.id))
  else
    jsOrS (ev.call.bind (fun c => c.phoneNumber.bind (fun ph => ph.id)))
      (ev.call.bind (fun c => c.phone.bind (fun ph => ph.id)))

/-- The phone-number key `handleCallEnded` extracts. -/
def cePhoneNum (ev : Ev) : Option String :=
  if ev.type == "end-of-call-report" then
    jsOrS (ev.phoneNumber.bind (fun ph => ph.number)) (ev.phone.bind (fun ph => ph.number))
  else
    jsOrS (ev.call.bind (fun c => c.phoneNumber.bind (fun ph => ph.number)))
      (ev.call.bind (fun c => c.phone.bind (fun ph => ph.number)))

/-- `handleCallEnded` (also reused for `end-of-call-report`): update the
existing call-log row by call id, and only when no row was updated resolve
the tenant and synthesize a completed row; everything inside an outer catch
that swallows errors. -/
def handleCallEnded (ev : Ev) (env : Env) : M Unit := do
  let call := ev.call
  let callId := call.bind (fun c => c.id)
  let phoneId := cePhoneId ev
  let phoneNum := cePhoneNum ev
  tryM
    (do
      let updated ← updateCallLogsWhere
        (fun cl => match callId with | some x => cl.call_id == some x | none => false)
        (fun cl => { cl with
                     status := "completed", duration := call.bind (fun c => c.duration),
                     transcript := ev.transcript,
                     recording_url := ev.recording.bind (fun rc => rc.url),
                     ended_at := some env.now })
      let hasUpdated := updated.length > 0
      if !hasUpdated then do
        let restaurant ← resolveByPhone phoneId phoneNum
        match restaurant with
        | none => pure ()
        | some restaurant => do
            let startedAt :=
              if truthyS (call.bind (fun c => c.startedAt)) then
                orEmptyS (call.bind (fun c => c.startedAt))
              else env.synthStartedAt
            match call with
            | none => throwM "TypeError: cannot read customer of undefined"
            | some c =>
                insertCallLog { restaurant_id := restaurant.id, call_id := callId,
                                caller_number := c.customer.bind (fun cu => cu.number),
                                status := "completed", duration := c.duration,
                                transcript := ev.transcript,
                                recording_url := ev.recording.bind (fun rc => rc.url),
                                started_at := some startedAt, ended_at := some env.now }
      if truthyS (call.bind (fun c => c.customer.bind (fun cu => cu.email))) then
        tryM (callExc env.hubLogActivity) (fun _ => pure ()))
    (fun _ => pure ())

/-- The switch of the webhook router over `event.type`. -/
def dispatchEvent (ev : Ev) (env : Env) : M Resp :=
  match ev.type with
  | "call.started" => do
      handleCallStarted ev env
      pure { status := 200, body := .received }
  | "call.ended" => do
      handleCallEnded ev env
      pure { status := 200, body := .received }
  | "tool-calls" => handleToolCalls ev env
  | "function-call" => handleFunctionCall ev env
  | "end-of-call-report" => do
      handleCallEnded ev env
      pure { status := 200, body := .received }
  | _ => pure { status := 200, body := .received }

/-- The event a raw request body carries: `req.body.message || req.body`. -/
def unwrapEvent (raw : Raw) : Ev :=
  match raw.message with | some m => m | none => raw.self

/-- The webhook endpoint: unwrap `req.body.message || req.body`, dispatch,
and convert an escaped exception into a 500 error response (the router's
catch). -/
def webhook (raw : Raw) (env : Env) (db : DB) : Resp × DB :=
  match dispatchEvent (unwrapEvent raw) env db with
  | .ok resp db2 => (resp, db2)
  | .exn _ db2 => ({ status := 500, body := .errorObj "Webhook processing failed" }, db2)

/-!  ## Proof machinery for the handler monad -/

theorem bind_apply {α β : Type} (m : M α) (f : α → M β) (db : DB) :
    (m >>= f) db = match m db with
      | .ok a db2 => f a db2
      | .exn e db2 => .exn e db2 := rfl

theorem pure_apply {α : Type} (a : α) (db : DB) : (pure a : M α) db = .ok a db := rfl

theorem tryM_apply {α : Type} (m : M α) (h : String → M α) (db : DB) :
    tryM m h db = match m db with
      | .ok a db2 => .ok a db2
      | .exn e db2 => h e db2 := rfl

theorem throwM_apply {α : Type} (e : String) (db : DB) : (throwM e : M α) db = .exn e db := rfl

theorem callExc_apply {α : Type} (e : Except String α) (db : DB) :
    callExc e db = match e with
      | .ok a => .ok a db
      | .error msg => .exn msg db := rfl

theorem getDb_apply (db : DB) : getDb db = .ok db db := rfl

theorem setDb_apply (d db : DB) : setDb d db = .ok () d := rfl

theorem selectRestaurantSingle_apply (p : Restaurant → Bool) (db : DB) :
    selectRestaurantSingle p db = .ok (findSingle p db.restaurants) db := rfl

theorem selectBookingSingle_apply (p : Booking → Bool) (db : DB) :
    selectBookingSingle p db = .ok (findSingle p db.bookings) db := rfl

theorem insertCallLog_apply (row : CallLog) (db : DB) :
    insertCallLog row db = .ok () { db with call_logs := db.call_logs ++ [row] } := rfl

theorem updateCallLogsWhere_apply (p : CallLog → Bool) (f : CallLog → CallLog) (db : DB) :
    updateCallLogsWhere p f db =
      .ok ((db.call_logs.filter p).map f)
        { db with call_logs := db.call_logs.map (fun cl => if p cl then f cl else cl) } := rfl

theorem updateBookingsWhere_apply (p : Booking → Bool) (f : Booking → Booking) (db : DB) :
    updateBookingsWhere p f db =
      .ok ((db.bookings.filter p).map f)
        { db with bookings := db.bookings.map (fun b => if p b then f b else b) } := rfl

theorem updateBookingsPayload_apply (u : Params) (q : Booking → Bool) (db : DB) :
    updateBookingsPayload u q db =
      if hasUnknownColumn u then .ok [] db
      else .ok ((db.bookings.filter q).map (applyUpdates u))
        { db with bookings := db.bookings.map (fun b =>
            if q b then applyUpdates u b else b) } := by
  cases h : hasUnknownColumn u with
  | true => simp [updateBookingsPayload, h, pure_apply]
  | false => simp [updateBookingsPayload, h, updateBookingsWhere_apply]

theorem insertBooking_apply (fails : Bool) (b : Booking) (db : DB) :
    insertBooking fails b db =
      if fails then .ok none db else .ok (some b) { db with bookings := db.bookings ++ [b] } := by
  cases fails <;> rfl

/-- Every normal result of `m` satisfies `P`, whatever the starting store. -/
def MSat {α : Type} (m : M α) (P : α → Prop) : Prop :=
  ∀ db, match m db with
    | .ok a _ => P a
    | .exn _ _ => True

theorem MSat_pure {α : Type} {P : α → Prop} {a : α} (h : P a) : MSat (pure a) P := fun _ => h

theorem MSat_bind {α β : Type} {m : M α} {f : α → M β} {Q : α → Prop} {P : β → Prop}
    (hm : MSat m Q) (hf : ∀ a, Q a → MSat (f a) P) : MSat (m >>= f) P := by
  intro db
  have hq := hm db
  rw [bind_apply]
  cases hmd : m db with
  | ok a db2 =>
      rw [hmd] at hq
      exact hf a hq db2
  | exn e db2 => trivial

theorem MSat_tryM {α : Type} {m : M α} {h : String → M α} {P : α → Prop}
    (hm : MSat m P) (hh : ∀ e, MSat (h e) P) : MSat (tryM m h) P := by
  intro db
  rw [tryM_apply]
  have hq := hm db
  cases hmd : m db with
  | ok a db2 =>
      rw [hmd] at hq
      exact hq
  | exn e db2 => exact hh e db2

theorem MSat_throwM {α : Type} {P : α → Prop} (e : String) : MSat (throwM e) P := fun _ => trivial

theorem MSat_ofAll {α : Type} {P : α → Prop} (m : M α) (h : ∀ a, P a) : MSat m P := by
  intro db
  cases m db with
  | ok a db2 => exact h a
  | exn e db2 => trivial

/-- `m` never throws. -/
def MTotal {α : Type} (m : M α) : Prop := ∀ db, ∃ a db2, m db = .ok a db2

theorem MTotal_tryM {α : Type} {m : M α} {h : String → M α}
    (hh : ∀ e, MTotal (h e)) : MTotal (tryM m h) := by
  intro db
  rw [tryM_apply]
  cases hmd : m db with
  | ok a db2 => exact ⟨a, db2, rfl⟩
  | exn e db2 => exact hh e db2

theorem MTotal_pure {α : Type} (a : α) : MTotal (pure a : M α) := fun db => ⟨a, db, rfl⟩

theorem MTotal_bind {α β : Type} {m : M α} {f : α → M β}
    (hm : MTotal m) (hf : ∀ a, MTotal (f a)) : MTotal (m >>= f) := by
  intro db
  obtain ⟨a, db2, ha⟩ := hm db
  obtain ⟨b, db3, hb⟩ := hf a db2
  refine ⟨b, db3, ?_⟩
  rw [bind_apply, ha]
  exact hb

/-!  ## Facts about time normalization (claims C6 and C10) -/

theorem digit_toNat_bound {c : Char} (h : c.isDigit = true) : c.toNat - 48 < 10 := by
  simp [Char.isDigit] at h
  obtain ⟨hl, hr⟩ := h
  have h2 : c.toNat ≤ 57 := by
    have := UInt32.le_def.mp hr
    simpa [Char.toNat, UInt32.toNat, BitVec.le_def] using this
  omega

theorem matchAt1_shape {l : List Char} {hh mm r : List Char}
    (h : matchAt1 l = some (hh, mm, r)) :
    (∃ a, hh = [a] ∧ a.isDigit = true) ∧
      ∃ c d, mm = [c, d] ∧ c.isDigit = true ∧ d.isDigit = true := by
  unfold matchAt1 at h
  split at h
  · rename_i a c d r2
    split at h
    · rename_i hcond
      simp only [Option.some.injEq, Prod.mk.injEq] at h
      obtain ⟨h1, h2, h3⟩ := h
      simp only [Bool.and_eq_true] at hcond
      exact ⟨⟨a, h1.symm, hcond.1.1⟩, c, d, h2.symm, hcond.1.2, hcond.2⟩
    · simp at h
  · simp at h

theorem matchAt_shape {l : List Char} {hh mm r : List Char}
    (h : matchAt l = some (hh, mm, r)) :
    ((∃ a, hh = [a] ∧ a.isDigit = true) ∨
      (∃ a b, hh = [a, b] ∧ a.isDigit = true ∧ b.isDigit = true)) ∧
      ∃ c d, mm = [c, d] ∧ c.isDigit = true ∧ d.isDigit = true := by
  unfold matchAt at h
  split at h
  · rename_i a b c d r2
    split at h
    · rename_i hcond
      simp only [Option.some.injEq, Prod.mk.injEq] at h
      obtain ⟨h1, h2, h3⟩ := h
      simp only [Bool.and_eq_true] at hcond
      exact ⟨Or.inr ⟨a, b, h1.symm, hcond.1.1.1, hcond.1.1.2⟩,
        c, d, h2.symm, hcond.1.2, hcond.2⟩
    · have := matchAt1_shape h
      exact ⟨Or.inl this.1, this.2⟩
  · have := matchAt1_shape h
    exact ⟨Or.inl this.1, this.2⟩

theorem scanMatch_shape {l : List Char} {hh mm : List Char} {mer : Option (List Char)}
    (h : scanMatch l = some (hh, mm, mer)) :
    ((∃ a, hh = [a] ∧ a.isDigit = true) ∨
      (∃ a b, hh = [a, b] ∧ a.isDigit = true ∧ b.isDigit = true)) ∧
      ∃ c d, mm = [c, d] ∧ c.isDigit = true ∧ d.isDigit = true := by
  induction l with
  | nil => simp [scanMatch] at h
  | cons x t ih =>
      rw [scanMatch] at h
      cases hma : matchAt (x :: t) with
      | some v =>
          obtain ⟨hh2, mm2, r2⟩ := v
          rw [hma] at h
          simp only [Option.some.injEq, Prod.mk.injEq] at h
          obtain ⟨h1, h2, h3⟩ := h
          have := matchAt_shape hma
          subst h1 h2
          exact this
      | none =>
          rw [hma] at h
          exact ih h

theorem parseIntDigits_bound {l : List Char}
    (hsh : (∃ a, l = [a] ∧ a.isDigit = true) ∨
      (∃ a b, l = [a, b] ∧ a.isDigit = true ∧ b.isDigit = true)) :
    parseIntDigits l < 100 := by
  rcases hsh with ⟨a, rfl, ha⟩ | ⟨a, b, rfl, ha, hb⟩
  · have := digit_toNat_bound ha
    simp [parseIntDigits, List.foldl]
    omega
  · have hba := digit_toNat_bound ha
    have hbb := digit_toNat_bound hb
    simp [parseIntDigits, List.foldl]
    omega

theorem pad2_repr_two_digits : ∀ n, n < 100 →
    (pad2 (Nat.repr n)).toList.length = 2 ∧
      ((pad2 (Nat.repr n)).toList.all Char.isDigit) = true := by
  decide

/-- A value produced by the converting branch of `normalizeTime` is a fixed
point of `normalizeTime`: it passes the anchored `^\d{2}:\d{2}$` test. -/
theorem normalizeTime_fix {h2 : Nat} {c d : Char} (hlt : h2 < 100)
    (hc : c.isDigit = true) (hd : d.isDigit = true) :
    normalizeTime (some (pad2 (Nat.repr h2) ++ ":" ++ String.mk [c, d])) =
      some (pad2 (Nat.repr h2) ++ ":" ++ String.mk [c, d]) := by
  obtain ⟨hlen, hall⟩ := pad2_repr_two_digits h2 hlt
  set t := pad2 (Nat.repr h2) ++ ":" ++ String.mk [c, d] with ht
  obtain ⟨a, b, hab⟩ : ∃ a b, (pad2 (Nat.repr h2)).toList = [a, b] := by
    cases hl : (pad2 (Nat.repr h2)).toList with
    | nil => rw [hl] at hlen; simp at hlen
    | cons x xs =>
        cases xs with
        | nil => rw [hl] at hlen; simp at hlen
        | cons y ys =>
            cases ys with
            | nil => exact ⟨x, y, rfl⟩
            | cons z zs => rw [hl] at hlen; simp at hlen
  have hta : t.toList = [a, b, ':', c, d] := by
    show t.data = [a, b, ':', c, d]
    rw [ht]
    rw [String.data_append, String.data_append]
    have hd2 : (pad2 (Nat.repr h2)).data = [a, b] := hab
    rw [hd2]
    rfl
  have hab2 : a.isDigit = true ∧ b.isDigit = true := by
    rw [hab] at hall
    simpa using hall
  have hne : t ≠ "" := by
    intro hcon
    rw [String.ext_iff] at hcon
    rw [show t.data = [a, b, ':', c, d] from hta] at hcon
    simp at hcon
  have hm : isHHMM t.toList = true := by
    rw [hta]
    simp [isHHMM, hab2.1, hab2.2, hc, hd]
  simp only [normalizeTime, if_neg hne, if_pos hm]

/-- The regex search on a string whose head matches the two-digit-hour form. -/
theorem scanMatch_2digit (h1 h2 m1 m2 : Char) (rest : List Char)
    (hd1 : h1.isDigit = true) (hd2 : h2.isDigit = true)
    (hd3 : m1.isDigit = true) (hd4 : m2.isDigit = true) :
    scanMatch (h1 :: h2 :: ':' :: m1 :: m2 :: rest) =
      some ([h1, h2], [m1, m2], parseMer rest) := by
  simp [scanMatch, matchAt, hd1, hd2, hd3, hd4]

/-- The 12-hour to 24-hour conversion as the claim states it: 12 AM becomes
hour 00, PM hours below 12 add 12, anything else is unchanged. -/
def merConvert (hour : Nat) (mer : String) : Nat :=
  if (mer = "PM" ∨ mer = "pm") ∧ hour < 12 then hour + 12
  else if (mer = "AM" ∨ mer = "am") ∧ hour = 12 then 0
  else hour

/-- C6: for every time string passed to Create or Update, normalization maps
24-hour `HH:MM` input to itself, maps `HH:MM` followed by AM/PM (in any of the
four accepted spellings) to 24-hour form with 12 AM becoming hour 00 and PM
hours below 12 adding 12, and returns input the regex cannot match unchanged
(the embedding is a total function, so nothing is thrown); in particular
"7:30 PM" maps to "19:30", "12:00 AM" to "00:00", "09:15" to "09:15", and
"whenever" to "whenever". -/
theorem C6_time_normalization :
    (∀ s : String, isHHMM s.toList = true → normalizeTime (some s) = some s) ∧
    (∀ h1 h2 m1 m2 a b : Char, h1.isDigit = true → h2.isDigit = true →
      m1.isDigit = true → m2.isDigit = true →
      (String.mk [a, b] = "AM" ∨ String.mk [a, b] = "PM" ∨
        String.mk [a, b] = "am" ∨ String.mk [a, b] = "pm") →
      normalizeTime (some (String.mk [h1, h2, ':', m1, m2, ' ', a, b])) =
        some (pad2 (Nat.repr (merConvert (parseIntDigits [h1, h2]) (String.mk [a, b]))) ++
          ":" ++ String.mk [m1, m2])) ∧
    (∀ s : String, scanMatch s.toList = none → normalizeTime (some s) = some s) ∧
    normalizeTime (some "7:30 PM") = some "19:30" ∧
    normalizeTime (some "12:00 AM") = some "00:00" ∧
    normalizeTime (some "09:15") = some "09:15" ∧
    normalizeTime (some "whenever") = some "whenever" := by
  refine ⟨?_, ?_, ?_, rfl, rfl, rfl, rfl⟩
  · intro s h
    have hne : s ≠ "" := by
      intro he
      subst he
      simp [isHHMM] at h
    simp only [normalizeTime]
    rw [if_neg hne, if_pos h]
  · intro h1 h2 m1 m2 a b hd1 hd2 hd3 hd4 hmer
    have hmer2 : (a = 'A' ∧ b = 'M') ∨ (a = 'P' ∧ b = 'M') ∨
        (a = 'a' ∧ b = 'm') ∨ (a = 'p' ∧ b = 'm') := by
      rcases hmer with hab | hab | hab | hab
      · exact Or.inl (by simpa [String.ext_iff] using hab)
      · exact Or.inr (Or.inl (by simpa [String.ext_iff] using hab))
      · exact Or.inr (Or.inr (Or.inl (by simpa [String.ext_iff] using hab)))
      · exact Or.inr (Or.inr (Or.inr (by simpa [String.ext_iff] using hab)))
    obtain ⟨rfl, rfl⟩ | ⟨rfl, rfl⟩ | ⟨rfl, rfl⟩ | ⟨rfl, rfl⟩ := hmer2
    · have hne : String.mk [h1, h2, ':', m1, m2, ' ', 'A', 'M'] ≠ "" := by
        simp [String.ext_iff]
      have hhm : isHHMM (String.mk [h1, h2, ':', m1, m2, ' ', 'A', 'M']).toList = false := rfl
      have hsc : scanMatch (String.mk [h1, h2, ':', m1, m2, ' ', 'A', 'M']).toList =
          some ([h1, h2], [m1, m2], some ['A', 'M']) := by
        rw [show (String.mk [h1, h2, ':', m1, m2, ' ', 'A', 'M']).toList =
            h1 :: h2 :: ':' :: m1 :: m2 :: [' ', 'A', 'M'] from rfl,
          scanMatch_2digit h1 h2 m1 m2 _ hd1 hd2 hd3 hd4]
        rfl
      simp only [normalizeTime, if_neg hne, hhm, Bool.false_eq_true, if_false, hsc]
      by_cases h12 : parseIntDigits [h1, h2] = 12 <;> simp [merConvert, h12]
    · have hne : String.mk [h1, h2, ':', m1, m2, ' ', 'P', 'M'] ≠ "" := by
        simp [String.ext_iff]
      have hhm : isHHMM (String.mk [h1, h2, ':', m1, m2, ' ', 'P', 'M']).toList = false := rfl
      have hsc : scanMatch (String.mk [h1, h2, ':', m1, m2, ' ', 'P', 'M']).toList =
          some ([h1, h2], [m1, m2], some ['P', 'M']) := by
        rw [show (String.mk [h1, h2, ':', m1, m2, ' ', 'P', 'M']).toList =
            h1 :: h2 :: ':' :: m1 :: m2 :: [' ', 'P', 'M'] from rfl,
          scanMatch_2digit h1 h2 m1 m2 _ hd1 hd2 hd3 hd4]
        rfl
      simp only [normalizeTime, if_neg hne, hhm, Bool.false_eq_true, if_false, hsc]
      by_cases hlt : parseIntDigits [h1, h2] < 12 <;> simp [merConvert, hlt]
    · have hne : String.mk [h1, h2, ':', m1, m2, ' ', 'a', 'm'] ≠ "" := by
        simp [String.ext_iff]
      have hhm : isHHMM (String.mk [h1, h2, ':', m1, m2, ' ', 'a', 'm']).toList = false := rfl
      have hsc : scanMatch (String.mk [h1, h2, ':', m1, m2, ' ', 'a', 'm']).toList =
          some ([h1, h2], [m1, m2], some ['a', 'm']) := by
        rw [show (String.mk [h1, h2, ':', m1, m2, ' ', 'a', 'm']).toList =
            h1 :: h2 :: ':' :: m1 :: m2 :: [' ', 'a', 'm'] from rfl,
          scanMatch_2digit h1 h2 m1 m2 _ hd1 hd2 hd3 hd4]
        rfl
      simp only [normalizeTime, if_neg hne, hhm, Bool.false_eq_true, if_false, hsc]
      by_cases h12 : parseIntDigits [h1, h2] = 12 <;> simp [merConvert, h12]
    · have hne : String.mk [h1, h2, ':', m1, m2, ' ', 'p', 'm'] ≠ "" := by
        simp [String.ext_iff]
      have hhm : isHHMM (String.mk [h1, h2, ':', m1, m2, ' ', 'p', 'm']).toList = false := rfl
      have hsc : scanMatch (String.mk [h1, h2, ':', m1, m2, ' ', 'p', 'm']).toList =
          some ([h1, h2], [m1, m2], some ['p', 'm']) := by
        rw [show (String.mk [h1, h2, ':', m1, m2, ' ', 'p', 'm']).toList =
            h1 :: h2 :: ':' :: m1 :: m2 :: [' ', 'p', 'm'] from rfl,
          scanMatch_2digit h1 h2 m1 m2 _ hd1 hd2 hd3 hd4]
        rfl
      simp only [normalizeTime, if_neg hne, hhm, Bool.false_eq_true, if_false, hsc]
      by_cases hlt : parseIntDigits [h1, h2] < 12 <;> simp [merConvert, hlt]
  · intro s hscan
    simp only [normalizeTime]
    by_cases he : s = ""
    · rw [if_pos he]
    · rw [if_neg he]
      by_cases hm : isHHMM s.toList = true
      · rw [if_pos hm]
      · rw [if_neg hm, hscan]

/-- Witness for C6: the conversion clause applied at the concrete input
"07:30 PM" (evaluating to "19:30"), with every hypothesis discharged. -/
theorem C6_time_normalization_witness :
    normalizeTime (some "07:30 PM") = some "19:30" := by
  have h := C6_time_normalization.2.1 '0' '7' '3' '0' 'P' 'M'
    (by decide) (by decide) (by decide) (by decide) (Or.inr (Or.inl (by decide)))
  exact h.trans (by decide)

/-- C10: the time-normalization function is total (it is a plain Lean
function into `Option String`, so no input makes it throw) and idempotent:
renormalizing any already-normalized value, including unparseable values
stored as-is, changes nothing. -/
theorem C10_normalizeTime_idempotent (x : Option String) :
    normalizeTime (normalizeTime x) = normalizeTime x := by
  cases x with
  | none => rfl
  | some s =>
      by_cases he : s = ""
      · subst he; rfl
      · by_cases hm : isHHMM s.toList = true
        · have h1 : normalizeTime (some s) = some s := by
            simp only [normalizeTime, if_neg he, if_pos hm]
          rw [h1, h1]
        · cases hsc : scanMatch s.toList with
          | none =>
              have h1 : normalizeTime (some s) = some s := by
                simp only [normalizeTime, if_neg he, if_neg hm, hsc]
              rw [h1, h1]
          | some v =>
              obtain ⟨hh, mm, mer⟩ := v
              have hshape := scanMatch_shape hsc
              have hh_lt := parseIntDigits_bound hshape.1
              obtain ⟨c, d, hmm, hc, hd⟩ := hshape.2
              subst hmm
              have key : ∃ h2, h2 < 100 ∧ normalizeTime (some s) =
                  some (pad2 (Nat.repr h2) ++ ":" ++ String.mk [c, d]) := by
                simp only [normalizeTime, if_neg he, if_neg hm, hsc]
                cases mer with
                | none => exact ⟨parseIntDigits hh, hh_lt, rfl⟩
                | some m =>
                    by_cases hp : (decide (m.map Char.toUpper = ['P', 'M']) &&
                        decide (parseIntDigits hh < 12)) = true
                    · refine ⟨parseIntDigits hh + 12, ?_, ?_⟩
                      · simp only [Bool.and_eq_true, decide_eq_true_eq] at hp
                        omega
                      · simp only [hp, if_true]
                    · by_cases ha : (decide (m.map Char.toUpper = ['A', 'M']) &&
                          decide (parseIntDigits hh = 12)) = true
                      · refine ⟨0, by omega, ?_⟩
                        simp [hp, ha]
                      · refine ⟨parseIntDigits hh, hh_lt, ?_⟩
                        simp [hp, ha]
              obtain ⟨h2, hlt, heq⟩ := key
              rw [heq, normalizeTime_fix hlt hc hd]

/-!  ## Facts about the availability oracle (claims C8 and C5) -/

theorem append_ne_empty_left {s : String} (t : String) (h : s ≠ "") : s ++ t ≠ "" := by
  intro hcon
  rw [String.ext_iff, String.data_append] at hcon
  apply h
  rw [String.ext_iff]
  cases hd : s.data with
  | nil => rfl
  | cons a l => rw [hd] at hcon; simp at hcon

/-- The candidate starts the while-loop of `findAvailableSlots` visits, with
explicit fuel. -/
def candidatesFrom : Nat → Nat → List Nat
  | 0, _ => []
  | n + 1, cur => if cur < 1320 then cur :: candidatesFrom n (cur + 30) else []

theorem slotLoop_eq_filter (busy : List (Nat × Nat)) :
    ∀ fuel cur, 1320 - cur ≤ 30 * fuel →
      slotLoop busy cur = (candidatesFrom fuel cur).filter
        (fun c => !(busy.any (fun b => c < b.2 && c + 60 > b.1))) := by
  intro fuel
  induction fuel with
  | zero =>
      intro cur hle
      rw [slotLoop]
      rw [if_neg (by omega)]
      rfl
  | succ n ih =>
      intro cur hle
      rw [slotLoop]
      by_cases hc : cur < 1320
      · rw [if_pos hc]
        have hrec := ih (cur + 30) (by omega)
        have hcand : candidatesFrom (n + 1) cur = cur :: candidatesFrom n (cur + 30) := by
          simp [candidatesFrom, hc]
        rw [hcand]
        by_cases hb : busy.any (fun b => cur < b.2 && cur + 60 > b.1)
        · rw [if_pos hb, hrec]
          simp [List.filter, hb]
        · rw [if_neg hb, hrec]
          have hbf : (busy.any (fun b => cur < b.2 && cur + 60 > b.1)) = false := by
            cases hv : busy.any (fun b => cur < b.2 && cur + 60 > b.1) with
            | true => exact absurd hv hb
            | false => rfl
          simp [List.filter_cons, hbf]
      · rw [if_neg hc]
        have hcand : candidatesFrom (n + 1) cur = [] := by
          simp [candidatesFrom, hc]
        rw [hcand]
        rfl

/-- C8: when the tenant has a calendar credential and the calendar reports
the requested window busy, the availability result is "unavailable" and its
message carries the first 3 free 1-hour slots: the slot search walks
candidate windows starting every 30 minutes from 09:00 (minute 540) up to
22:00 (minute 1320, exclusive), keeps exactly the candidates overlapping no
busy interval under the test `candidateStart < busyEnd AND candidateEnd >
busyStart`, and the message renders at most the first 3 of them
human-readably (or the fully-booked apology when none are free). -/
theorem C8_busy_suggestions (rid : String) (r : Restaurant) (p : Params) (env : Env)
    (db : DB) (w busy : List (Nat × Nat))
    (hcred : truthyS r.google_calendar_tokens = true)
    (hpt : env.parseTokens = .ok ())
    (hw : env.calBusyWindow = .ok w) (hwne : w ≠ [])
    (hbd : env.calBusyDay = .ok busy) :
    slotLoop busy 540 = ((List.range 26).map (fun i => 540 + 30 * i)).filter
      (fun c => !(busy.any (fun b => c < b.2 && c + 60 > b.1))) ∧
    ((slotLoop busy 540).take 3).length ≤ 3 ∧
    checkAvailability rid r p env db = .ok
      { result := some "unavailable",
        message := some (if (slotLoop busy 540).length > 0 then
            "Sorry, that time is taken. However, we have availability at: " ++
              String.intercalate ", " (((slotLoop busy 540).take 3).map fmtTime) ++ "."
          else "Sorry, we are fully booked on " ++ showS p.date ++ ".") } db := by
  refine ⟨?_, ?_, ?_⟩
  · have h1 := slotLoop_eq_filter busy 26 540 (by omega)
    have h2 : candidatesFrom 26 540 = (List.range 26).map (fun i => 540 + 30 * i) := by decide
    rw [h1, h2]
  · exact List.length_take_le ..
  · have hie : w.isEmpty = false := by
      cases w with
      | nil => simp at hwne
      | cons a t => rfl
    by_cases hlen : (slotLoop busy 540).length > 0
    · have hne1 : "Sorry, that time is taken. However, we have availability at: " ++
          String.intercalate ", " (List.take 3 (List.map fmtTime (slotLoop busy 540))) ++
            "." ≠ "" := by
        apply append_ne_empty_left
        apply append_ne_empty_left
        decide
      simp only [checkAvailability, tryM_apply, bind_apply, pure_apply, callExc_apply,
        getDb_apply, hcred, if_true, hpt, calCheckAvailability, hw, hie, findAvailableSlots,
        hbd, hlen, if_false, Bool.false_eq_true, gt_iff_lt]
      simp [hlen]
      exact fun hcon => absurd hcon hne1
    · simp only [checkAvailability, tryM_apply, bind_apply, pure_apply, callExc_apply,
        getDb_apply, hcred, if_true, hpt, calCheckAvailability, hw, hie, findAvailableSlots,
        hbd, hlen, if_false, Bool.false_eq_true, gt_iff_lt]
      have hne2 : "Sorry, we are fully booked on " ++ showS p.date ++ "." ≠ "" := by
        apply append_ne_empty_left
        apply append_ne_empty_left
        decide
      simp [hlen]
      exact fun hcon => absurd hcon hne2

/-- Witness for C8: a concrete tenant with a credential, a busy requested
window, and a day busy from 09:00 to 20:00; the suggestions are 20:00, 20:30
and 21:00 and the message carries exactly those three. -/
theorem C8_busy_suggestions_witness :
    checkAvailability "rest-1" { id := "rest-1", google_calendar_tokens := some "tok" }
      { date := some "2026-02-01", time := some "19:00", partySize := some 4 }
      { calBusyWindow := .ok [(1140, 1230)], calBusyDay := .ok [(540, 1200)] } {} = .ok
      { result := some "unavailable",
        message := some "Sorry, that time is taken. However, we have availability at: 20:00, 20:30, 21:00." } {} := by
  have h := (C8_busy_suggestions "rest-1" { id := "rest-1", google_calendar_tokens := some "tok" }
    { date := some "2026-02-01", time := some "19:00", partySize := some 4 }
    { calBusyWindow := .ok [(1140, 1230)], calBusyDay := .ok [(540, 1200)] } {}
    [(1140, 1230)] [(540, 1200)] rfl rfl rfl (by decide) rfl).2.2
  have hs : slotLoop [(540, 1200)] 540 = [1200, 1230, 1260, 1290] := by
    simp [slotLoop]
  rw [h, hs]
  rfl

/-- C5: when the tenant holds a calendar credential and the external calendar
query throws, `checkAvailability` does not propagate the error: it falls
through to the local decision and answers "available" exactly when the
effective capacity (50 when unset) minus the summed party sizes of the
tenant's confirmed reservations for that date and time is at least the
requested party size; and on every input the oracle returns a decision,
never a thrown error. -/
theorem C5_availability_fallthrough (rid : String) (r : Restaurant) (p : Params) (env : Env)
    (db : DB) (n : Int) (e : String)
    (hcred : truthyS r.google_calendar_tokens = true)
    (hthrow : env.calBusyWindow = .error e)
    (hps : p.partySize = some n) :
    (checkAvailability rid r p env db = .ok
      { result := some (if effCapacity r.capacity -
            ((localBookedSizes db rid p).foldl (fun a x => a + x) 0) ≥ n
          then "available" else "unavailable"),
        message := some (if effCapacity r.capacity -
            ((localBookedSizes db rid p).foldl (fun a x => a + x) 0) ≥ n
          then "Yes, we have availability for " ++ showI p.partySize ++ " guests on " ++
            showS p.date ++ " at " ++ showS p.time ++ "."
          else "Sorry, we don't have availability for " ++ showI p.partySize ++
            " guests at that time.") } db) ∧
    ((if effCapacity r.capacity - ((localBookedSizes db rid p).foldl (fun a x => a + x) 0) ≥ n
        then "available" else "unavailable") = "available" ↔
      effCapacity r.capacity - ((localBookedSizes db rid p).foldl (fun a x => a + x) 0) ≥ n) ∧
    (∀ (rid2 : String) (r2 : Restaurant) (p2 : Params) (env2 : Env),
      MTotal (checkAvailability rid2 r2 p2 env2)) := by
  refine ⟨?_, ?_, ?_⟩
  · by_cases hc : effCapacity r.capacity -
        ((localBookedSizes db rid p).foldl (fun a x => a + x) 0) ≥ n <;>
      cases hpt : env.parseTokens with
      | error e2 =>
          simp only [checkAvailability, tryM_apply, bind_apply, pure_apply, callExc_apply,
            getDb_apply, hcred, if_true, hpt, hthrow, calCheckAvailability, hps, hc]
          simp [hc]
      | ok u =>
          cases u
          simp only [checkAvailability, tryM_apply, bind_apply, pure_apply, callExc_apply,
            getDb_apply, hcred, if_true, hpt, hthrow, calCheckAvailability, hps, hc]
          simp [hc]
  · by_cases hc : effCapacity r.capacity -
        ((localBookedSizes db rid p).foldl (fun a x => a + x) 0) ≥ n <;> simp [hc]
  · intro rid2 r2 p2 env2
    apply MTotal_tryM
    intro e2
    apply MTotal_pure

/-- Witness for C5: a tenant with capacity 10 and a confirmed reservation of
7 at the requested slot; the calendar throws, and a request for 4 guests is
answered "unavailable" from the local accounting (10 - 7 < 4). -/
theorem C5_availability_fallthrough_witness :
    checkAvailability "rest-4"
      { id := "rest-4", capacity := some 10, google_calendar_tokens := some "tok" }
      { date := some "2026-02-01", time := some "19:00", partySize := some 4 }
      { calBusyWindow := .error "ETIMEDOUT" }
      { restaurants := [],
        bookings := [{ id := "b2", restaurant_id := "rest-4",
                       booking_date := some "2026-02-01", booking_time := some "19:00",
                       party_size := some 7, confirmation_number := "TN-2",
                       status := "confirmed" }],
        call_logs := [] } = .ok
      { result := some "unavailable",
        message := some "Sorry, we don't have availability for 4 guests at that time." }
      { restaurants := [],
        bookings := [{ id := "b2", restaurant_id := "rest-4",
                       booking_date := some "2026-02-01", booking_time := some "19:00",
                       party_size := some 7, confirmation_number := "TN-2",
                       status := "confirmed" }],
        call_logs := [] } := by
  have h := (C5_availability_fallthrough "rest-4"
    { id := "rest-4", capacity := some 10, google_calendar_tokens := some "tok" }
    { date := some "2026-02-01", time := some "19:00", partySize := some 4 }
    { calBusyWindow := .error "ETIMEDOUT" }
    { restaurants := [],
      bookings := [{ id := "b2", restaurant_id := "rest-4",
                     booking_date := some "2026-02-01", booking_time := some "19:00",
                     party_size := some 7, confirmation_number := "TN-2",
                     status := "confirmed" }],
      call_logs := [] } 4 "ETIMEDOUT" (by decide) rfl rfl).1
  rw [h]
  rfl

/-- The update fan-out never throws and never touches the store: every
branch either succeeds or is caught by its own handler. -/
theorem ubFanout_apply (r : Restaurant) (updates : Params) (booking : Booking) (env : Env)
    (db : DB) : ubFanout r updates booking env db = .ok () db := by
  by_cases c1 : (truthyS r.google_calendar_tokens && truthyS booking.calendar_event_id &&
      (truthyS updates.date || truthyS updates.time)) = true <;>
    by_cases c2 : truthyS booking.hubspot_deal_id = true <;>
      cases hpt : env.parseTokens <;> cases hcu : env.calUpdate <;>
        cases hhu : env.hubUpdateDealStatus <;>
          simp [ubFanout, c1, c2, tryM_apply, bind_apply, callExc_apply, pure_apply,
            hpt, hcu, hhu]

/-- The cancel fan-out never throws and never touches the store. -/
theorem canFanout_apply (r : Restaurant) (booking : Booking) (env : Env) (db : DB) :
    canFanout r booking env db = .ok () db := by
  by_cases c1 : (truthyS r.google_calendar_tokens && truthyS booking.calendar_event_id) = true <;>
    by_cases c2 : truthyS booking.hubspot_deal_id = true <;>
      cases hpt : env.parseTokens <;> cases hcd : env.calDelete <;>
        cases hhu : env.hubUpdateDealStatus <;>
          simp [canFanout, c1, c2, tryM_apply, bind_apply, callExc_apply, pure_apply,
            hpt, hcd, hhu]

/-!  ## Facts about the update lookup (claim C9) -/

theorem effUpdates_id (p : Params) : (effUpdates p).id = p.id := by
  simp only [effUpdates, destructUpdates]
  by_cases h : truthyS p.time = true <;> simp [h]

theorem normalizeTime_isSome (o : Option String) : (normalizeTime o).isSome = o.isSome := by
  cases o with
  | none => rfl
  | some s =>
      simp only [normalizeTime, Option.isSome_some]
      split
      · rfl
      · split
        · rfl
        · split <;> rfl

/-- The destructuring and the conditional time normalization neither add nor
remove unknown-column keys. -/
theorem hasUnknownColumn_effUpdates (p : Params) :
    hasUnknownColumn (effUpdates p) = hasUnknownColumn p := by
  simp only [effUpdates, destructUpdates]
  by_cases h : truthyS p.time = true <;> simp [h, hasUnknownColumn, normalizeTime_isSome]

theorem filter_nil_map_id {α : Type} (l : List α) (q : α → Bool) (f : α → α)
    (h : l.filter q = []) : l.map (fun x => if q x then f x else x) = l := by
  induction l with
  | nil => rfl
  | cons a t ih =>
      rw [List.filter_cons] at h
      by_cases hq : q a
      · rw [if_pos hq] at h
        simp at h
      · rw [if_neg hq] at h
        simp only [List.map_cons, if_neg hq]
        rw [ih h]

/-- C9: the update lookup is scoped to (tenant, confirmation code) first.
(A) When the payload carries an explicit truthy `id` and the scoped update
matches nothing, the global fallback is disabled: the result is the
not-found failure and no booking row of any tenant is written.
(B) When the payload has no `id`, names only real columns, and the scoped
update matches nothing, the fallback update by confirmation code alone runs:
with exactly one global match the update succeeds and exactly the
code-matching rows are written.
(C) A payload naming an unknown column is rejected wholesale by the store
(scoped and fallback attempt alike): the result is the not-found/failed
outcome and nothing is written, whatever rows match. -/
theorem C9_update_lookup_scoping (rid : String) (r : Restaurant) (p : Params) (env : Env)
    (db : DB) :
    (∀ iid : String, p.id = some iid → iid ≠ "" →
      db.bookings.filter (fun b => b.restaurant_id == rid &&
        some b.confirmation_number == p.confirmationNumber) = [] →
      updateBooking rid r p env db =
        .ok { success := some false,
              message := some "Booking not found or update failed." } db) ∧
    (∀ bk : Booking, p.id = none → hasUnknownColumn p = false →
      db.bookings.filter (fun b => b.restaurant_id == rid &&
        some b.confirmation_number == p.confirmationNumber) = [] →
      db.bookings.filter (fun b => some b.confirmation_number == p.confirmationNumber) = [bk] →
      updateBooking rid r p env db =
        .ok { success := some true,
              message := some "Your booking has been updated successfully." }
          { db with bookings := db.bookings.map (fun b =>
              if some b.confirmation_number == p.confirmationNumber
              then applyUpdates (effUpdates p) b else b) }) ∧
    (hasUnknownColumn p = true →
      updateBooking rid r p env db =
        .ok { success := some false,
              message := some "Booking not found or update failed." } db) := by
  refine ⟨?_, ?_, ?_⟩
  · intro iid hid hne hmiss
    have htr : truthyS (effUpdates p).id = true := by
      rw [effUpdates_id, hid]
      simpa [truthyS] using hne
    cases hu : hasUnknownColumn (effUpdates p) with
    | true =>
        simp only [updateBooking, bind_apply, pure_apply, updateBookingsPayload, hu, if_true,
          listSingle, htr, Bool.not_true, Bool.and_false, Bool.false_eq_true, if_false]
    | false =>
        have hmap := filter_nil_map_id db.bookings _ (applyUpdates (effUpdates p)) hmiss
        simp only [updateBooking, bind_apply, pure_apply, updateBookingsPayload, hu,
          Bool.false_eq_true, if_false, updateBookingsWhere_apply, hmiss,
          List.map_nil, listSingle, htr, Bool.not_true, Bool.and_false, hmap]
  · intro bk hid hknown hmiss hhit
    have htr : truthyS (effUpdates p).id = false := by
      rw [effUpdates_id, hid]
      rfl
    have hu : hasUnknownColumn (effUpdates p) = false := by
      rw [hasUnknownColumn_effUpdates]
      exact hknown
    have hmap := filter_nil_map_id db.bookings _ (applyUpdates (effUpdates p)) hmiss
    simp only [updateBooking, bind_apply, pure_apply, updateBookingsPayload, hu,
      Bool.false_eq_true, if_false, updateBookingsWhere_apply, hmiss,
      List.map_nil, listSingle, htr, Bool.not_false, Bool.and_true, hmap, hhit,
      List.map_cons, Option.isNone_none, Bool.true_and, if_true, ubFanout_apply]
  · intro hunk
    have hu : hasUnknownColumn (effUpdates p) = true := by
      rw [hasUnknownColumn_effUpdates]
      exact hunk
    cases htr : truthyS (effUpdates p).id with
    | true =>
        simp only [updateBooking, bind_apply, pure_apply, updateBookingsPayload, hu, if_true,
          listSingle, htr, Bool.not_true, Bool.and_false, Bool.false_eq_true, if_false]
    | false =>
        simp only [updateBooking, bind_apply, pure_apply, updateBookingsPayload, hu, if_true,
          listSingle, htr, Bool.not_false, Bool.and_true, Option.isNone_none, Bool.true_and]

/-- Witness for C9: a booking of tenant rest-2 shares the confirmation code
the caller quotes to tenant rest-1; with an explicit `id` in the payload the
scoped miss yields the not-found failure and the foreign row stays intact. -/
theorem C9_update_lookup_scoping_witness :
    updateBooking "rest-1" { id := "rest-1" }
      { confirmationNumber := some "TN-9", partySize := some 3, id := some "b9" } {}
      { restaurants := [],
        bookings := [{ id := "b9", restaurant_id := "rest-2",
                       confirmation_number := "TN-9", status := "confirmed" }],
        call_logs := [] } =
      .ok { success := some false, message := some "Booking not found or update failed." }
        { restaurants := [],
          bookings := [{ id := "b9", restaurant_id := "rest-2",
                         confirmation_number := "TN-9", status := "confirmed" }],
          call_logs := [] } :=
  (C9_update_lookup_scoping "rest-1" { id := "rest-1" }
    { confirmationNumber := some "TN-9", partySize := some 3, id := some "b9" } {}
    { restaurants := [],
      bookings := [{ id := "b9", restaurant_id := "rest-2",
                     confirmation_number := "TN-9", status := "confirmed" }],
      call_logs := [] }).1 "b9" rfl (by decide) (by decide)

/-!  ## Facts about the side-effect fan-out (claim C2) -/

/-- A row rewrite that never touches the booking fields the lifecycle owns. -/
def corePres (g : Booking → Booking) : Prop :=
  ∀ b : Booking, (g b).id = b.id ∧ (g b).restaurant_id = b.restaurant_id ∧
    (g b).status = b.status ∧ (g b).confirmation_number = b.confirmation_number

theorem corePres_id : corePres id := fun _ => ⟨rfl, rfl, rfl, rfl⟩

/-- The calendar step of Create never throws (its catch swallows) and only
rewrites rows in a way that preserves the lifecycle-owned fields. -/
theorem cbCalendarStep_spec (r : Restaurant) (booking : Booking) (env : Env) (db : DB) :
    ∃ (db2 : DB) (g : Booking → Booking), cbCalendarStep r booking env db = .ok () db2 ∧
      corePres g ∧ db2.bookings = db.bookings.map g ∧
      db2.restaurants = db.restaurants ∧ db2.call_logs = db.call_logs := by
  by_cases hct : truthyS r.google_calendar_tokens = true
  · cases hpt : env.parseTokens with
    | error s =>
        refine ⟨db, id, ?_, corePres_id, by simp, rfl, rfl⟩
        simp [cbCalendarStep, hct, tryM_apply, bind_apply, callExc_apply, hpt, pure_apply]
    | ok u =>
        cases u
        cases hcc : env.calCreate with
        | error s =>
            refine ⟨db, id, ?_, corePres_id, by simp, rfl, rfl⟩
            simp [cbCalendarStep, hct, tryM_apply, bind_apply, callExc_apply, hpt, hcc,
              pure_apply]
        | ok evId =>
            have heq : cbCalendarStep r booking env db = .ok ()
                { db with bookings := db.bookings.map (fun b =>
                    if b.id == booking.id then { b with calendar_event_id := some evId }
                    else b) } := by
              simp [cbCalendarStep, hct, tryM_apply, bind_apply, callExc_apply, hpt, hcc,
                updateBookingsWhere_apply, pure_apply]
            refine ⟨_, _, heq, ?_, rfl, rfl, rfl⟩
            intro b
            by_cases hb : (b.id == booking.id) = true <;> simp [hb]
  · refine ⟨db, id, ?_, corePres_id, by simp, rfl, rfl⟩
    simp [cbCalendarStep, hct, pure_apply]

/-- The CRM step of Create never throws (its catch swallows) and only
rewrites rows in a way that preserves the lifecycle-owned fields. -/
theorem cbHubStep_spec (p : Params) (booking : Booking) (env : Env) (db : DB) :
    ∃ (db2 : DB) (g : Booking → Booking), cbHubStep p booking env db = .ok () db2 ∧
      corePres g ∧ db2.bookings = db.bookings.map g ∧
      db2.restaurants = db.restaurants ∧ db2.call_logs = db.call_logs := by
  by_cases hge : truthyS p.guestEmail = true
  · cases hgn : p.guestName with
    | none =>
        refine ⟨db, id, ?_, corePres_id, by simp, rfl, rfl⟩
        simp [cbHubStep, hge, hgn, tryM_apply, bind_apply, callExc_apply, throwM_apply,
          pure_apply]
    | some gname =>
        cases huc : env.hubUpsertContact with
        | error s =>
            refine ⟨db, id, ?_, corePres_id, by simp, rfl, rfl⟩
            simp [cbHubStep, hge, hgn, tryM_apply, bind_apply, callExc_apply, huc,
              pure_apply]
        | ok u =>
            cases u
            cases hcd : env.hubCreateDeal with
            | error s =>
                refine ⟨db, id, ?_, corePres_id, by simp, rfl, rfl⟩
                simp [cbHubStep, hge, hgn, tryM_apply, bind_apply, callExc_apply, huc, hcd,
                  pure_apply]
            | ok deal =>
                by_cases htd : truthyS deal = true
                · have heq : cbHubStep p booking env db = .ok ()
                      { db with bookings := db.bookings.map (fun b =>
                          if b.id == booking.id then { b with hubspot_deal_id := deal }
                          else b) } := by
                    simp [cbHubStep, hge, hgn, tryM_apply, bind_apply, callExc_apply, huc,
                      hcd, htd, updateBookingsWhere_apply, pure_apply]
                  refine ⟨_, _, heq, ?_, rfl, rfl, rfl⟩
                  intro b
                  by_cases hb : (b.id == booking.id) = true <;> simp [hb]
                · refine ⟨db, id, ?_, corePres_id, by simp, rfl, rfl⟩
                  simp [cbHubStep, hge, hgn, tryM_apply, bind_apply, callExc_apply, huc,
                    hcd, htd, pure_apply]
  · refine ⟨db, id, ?_, corePres_id, by simp, rfl, rfl⟩
    simp [cbHubStep, hge, pure_apply]

/-- The notification step of Create is a no-op on the store and succeeds when
both notifier calls return normally. -/
theorem cbMailStep_ok (r : Restaurant) (p : Params) (env : Env) (db : DB)
    (hmg : env.mailGuest = .ok ()) (hmr : env.mailRestaurant = .ok ()) :
    cbMailStep r p env db = .ok () db := by
  by_cases hge : truthyS p.guestEmail = true <;>
    by_cases hre : truthyS r.email = true <;>
      simp [cbMailStep, hge, hre, bind_apply, callExc_apply, hmg, hmr, pure_apply]

/-- The notification step of Create rethrows a guest-notifier error: there is
no try/catch around it. -/
theorem cbMailStep_guest_throw (r : Restaurant) (p : Params) (env : Env) (db : DB)
    (em : String) (hge : truthyS p.guestEmail = true) (hmg : env.mailGuest = .error em) :
    cbMailStep r p env db = .exn em db := by
  simp [cbMailStep, hge, bind_apply, callExc_apply, hmg]

/-- Counterexample to C2 as stated: with the guest-notification effect
throwing ("SMTP down"), Create does NOT report success — the error escapes
`createBooking` (and would become an HTTP 500) — even though the reservation
was already committed, remains stored with status confirmed, and is not
rolled back; the remaining effects (tenant notification, CRM) never ran
(`hubspot_deal_id` is still null). -/
theorem C2_notification_throw_counterexample :
    createBooking "rest-1"
      { id := "rest-1", name := some "Theemris", vapi_assistant_id := some "asst-1" }
      { date := some "2026-02-01", time := some "7:30 PM", partySize := some 4,
        guestName := some "John Smith", guestEmail := some "j@x.com" }
      { mailGuest := .error "SMTP down" } { restaurants := [] } =
    .exn "SMTP down"
      { restaurants := [],
        bookings := [{ id := "bk-1", restaurant_id := "rest-1",
                       guest_name := some "John Smith", guest_email := some "j@x.com",
                       booking_date := some "2026-02-01", booking_time := some "19:30",
                       party_size := some 4,
                       confirmation_number := "TN-1767225600000-A1B2C3",
                       status := "confirmed", source := "phone" }],
        call_logs := [] } := rfl

/-- C2 (amended): (A) the calendar and CRM effects of Create are isolated —
whatever their outcomes (including throws), Create reports success and the
stored reservation exists with status confirmed, provided the store insert
succeeded and the (un-caught) notifier calls return; (B) the guest
notification effect is NOT isolated — its throw escapes Create, yet the
stored reservation is not rolled back and remains confirmed (the remaining
effects are skipped); (C) the calendar and CRM effects of Cancel are
isolated — whatever their outcomes, Cancel reports success and only sets the
found reservation's status to cancelled; (D) the calendar and CRM effects of
Update are isolated — whatever their outcomes, once the store update found
its row Update reports success and the committed row update stands
untouched. -/
theorem C2_side_effect_isolation (rid : String) (r : Restaurant) (p : Params) (env : Env)
    (db : DB) :
    (env.insertError = false → env.mailGuest = .ok () → env.mailRestaurant = .ok () →
      ∃ (res : FnRes) (db2 : DB), createBooking rid r p env db = .ok res db2 ∧
        res.success = some true ∧
        res.confirmationNumber = some ("TN-" ++ toString env.nowMs ++ "-" ++ env.rand6) ∧
        ∃ bk, bk ∈ db2.bookings ∧ bk.id = env.newBookingId ∧ bk.restaurant_id = rid ∧
          bk.status = "confirmed" ∧
          bk.confirmation_number = "TN-" ++ toString env.nowMs ++ "-" ++ env.rand6) ∧
    (∀ em : String, env.insertError = false → truthyS p.guestEmail = true →
      env.mailGuest = .error em →
      ∃ db2 : DB, createBooking rid r p env db = .exn em db2 ∧
        ∃ bk, bk ∈ db2.bookings ∧ bk.id = env.newBookingId ∧ bk.restaurant_id = rid ∧
          bk.status = "confirmed" ∧
          bk.confirmation_number = "TN-" ++ toString env.nowMs ++ "-" ++ env.rand6) ∧
    (∀ bk : Booking, db.bookings.filter (fun b => b.restaurant_id == rid &&
        some b.confirmation_number == p.confirmationNumber) = [bk] →
      env.cancelUpdateError = false →
      cancelBooking rid r p env db = .ok
        { success := some true, message := some "Your booking has been cancelled successfully." }
        { db with bookings := db.bookings.map (fun b =>
            if b.id == bk.id then { b with status := "cancelled" } else b) }) ∧
    (∀ bk : Booking, hasUnknownColumn p = false →
      listSingle ((db.bookings.filter (fun b => b.restaurant_id == rid &&
        some b.confirmation_number == p.confirmationNumber)).map
          (applyUpdates (effUpdates p))) = some bk →
      updateBooking rid r p env db = .ok
        { success := some true, message := some "Your booking has been updated successfully." }
        { db with bookings := db.bookings.map (fun b =>
            if b.restaurant_id == rid && some b.confirmation_number == p.confirmationNumber
            then applyUpdates (effUpdates p) b else b) }) := by
  refine ⟨?_, ?_, ?_, ?_⟩
  · intro hins hmg hmr
    set bk0 : Booking :=
      { id := env.newBookingId, restaurant_id := rid,
        guest_name := p.guestName, guest_email := p.guestEmail, guest_phone := p.guestPhone,
        booking_date := p.date, booking_time := normalizeTime p.time,
        party_size := p.partySize, special_requests := p.specialRequests,
        confirmation_number := "TN-" ++ toString env.nowMs ++ "-" ++ env.rand6,
        status := "confirmed", source := "phone" } with hbk0
    set db1 : DB := { db with bookings := db.bookings ++ [bk0] } with hdb1
    obtain ⟨db2c, g1, hcal, hg1, hb1, _, _⟩ := cbCalendarStep_spec r bk0 env db1
    have hmail := cbMailStep_ok r p env db2c hmg hmr
    obtain ⟨db3, g2, hhub, hg2, hb2, _, _⟩ := cbHubStep_spec p bk0 env db2c
    have heval : createBooking rid r p env db = .ok
        { success := some true,
          confirmationNumber := some ("TN-" ++ toString env.nowMs ++ "-" ++ env.rand6),
          message := some ("Perfect! Your reservation is confirmed for " ++ showI p.partySize ++
            " guests on " ++ showS p.date ++ " at " ++ showS p.time ++
            ". Your confirmation number is " ++
            ("TN-" ++ toString env.nowMs ++ "-" ++ env.rand6) ++ ". " ++
            (if truthyS p.guestEmail then "A confirmation email has been sent to you."
             else "")) } db3 := by
      simp only [createBooking, bind_apply, insertBooking_apply, hins, Bool.false_eq_true,
        if_false]
      rw [← hbk0, ← hdb1]
      simp only [bind_apply, hcal, hmail, hhub, pure_apply]
    refine ⟨_, db3, heval, rfl, rfl, ?_⟩
    refine ⟨g2 (g1 bk0), ?_, ?_⟩
    · rw [hb2, hb1, hdb1]
      simp only [List.map_append, List.map_cons, List.map_nil]
      exact List.mem_append_right _ (by simp)
    · obtain ⟨hi2, hr2, hs2, hc2⟩ := hg2 (g1 bk0)
      obtain ⟨hi1, hr1, hs1, hc1⟩ := hg1 bk0
      exact ⟨by rw [hi2, hi1], by rw [hr2, hr1], by rw [hs2, hs1], by rw [hc2, hc1]⟩
  · intro em hins hge hmg
    set bk0 : Booking :=
      { id := env.newBookingId, restaurant_id := rid,
        guest_name := p.guestName, guest_email := p.guestEmail, guest_phone := p.guestPhone,
        booking_date := p.date, booking_time := normalizeTime p.time,
        party_size := p.partySize, special_requests := p.specialRequests,
        confirmation_number := "TN-" ++ toString env.nowMs ++ "-" ++ env.rand6,
        status := "confirmed", source := "phone" } with hbk0
    set db1 : DB := { db with bookings := db.bookings ++ [bk0] } with hdb1
    obtain ⟨db2c, g1, hcal, hg1, hb1, _, _⟩ := cbCalendarStep_spec r bk0 env db1
    have hmail := cbMailStep_guest_throw r p env db2c em hge hmg
    refine ⟨db2c, ?_, ?_⟩
    · simp only [createBooking, bind_apply, insertBooking_apply, hins, Bool.false_eq_true,
        if_false]
      rw [← hbk0, ← hdb1]
      simp only [bind_apply, hcal, hmail]
    · refine ⟨g1 bk0, ?_, ?_⟩
      · rw [hb1, hdb1]
        simp only [List.map_append, List.map_cons, List.map_nil]
        exact List.mem_append_right _ (by simp)
      · obtain ⟨hi1, hr1, hs1, hc1⟩ := hg1 bk0
        exact ⟨by rw [hi1], by rw [hr1], by rw [hs1], by rw [hc1]⟩
  · intro bk hfil hcue
    simp only [cancelBooking, bind_apply, selectBookingSingle_apply, findSingle, hfil,
      listSingle, pure_apply, hcue, Bool.false_eq_true, if_false, updateBookingsWhere_apply,
      canFanout_apply]
  · intro bk hknown hsc
    have hu : hasUnknownColumn (effUpdates p) = false := by
      rw [hasUnknownColumn_effUpdates]
      exact hknown
    simp only [updateBooking, bind_apply, updateBookingsPayload, hu, Bool.false_eq_true,
      if_false, updateBookingsWhere_apply, hsc, Option.isNone_some, Bool.false_and,
      pure_apply, ubFanout_apply]

/-- Witness for C2: the claim's own instance — CRM deal creation throws
("CRM down"), yet Create reports success and the reservation is stored with
status confirmed. -/
theorem C2_side_effect_isolation_witness :
    ∃ (res : FnRes) (db2 : DB),
      createBooking "rest-1"
        { id := "rest-1", name := some "Theemris", vapi_assistant_id := some "asst-1" }
        { date := some "2026-02-01", time := some "7:30 PM", partySize := some 4,
          guestName := some "John Smith", guestEmail := some "j@x.com" }
        { hubCreateDeal := .error "CRM down" } { restaurants := [] } = .ok res db2 ∧
      res.success = some true ∧
      res.confirmationNumber = some ("TN-" ++ toString (1767225600000 : Nat) ++ "-" ++ "A1B2C3") ∧
      ∃ bk, bk ∈ db2.bookings ∧ bk.id = "bk-1" ∧ bk.restaurant_id = "rest-1" ∧
        bk.status = "confirmed" ∧
        bk.confirmation_number = "TN-" ++ toString (1767225600000 : Nat) ++ "-" ++ "A1B2C3" :=
  (C2_side_effect_isolation "rest-1"
    { id := "rest-1", name := some "Theemris", vapi_assistant_id := some "asst-1" }
    { date := some "2026-02-01", time := some "7:30 PM", partySize := some 4,
      guestName := some "John Smith", guestEmail := some "j@x.com" }
    { hubCreateDeal := .error "CRM down" } { restaurants := [] }).1 rfl rfl rfl

/-!  ## Facts about the reservation status machine (claim C3) -/

/-- One lifecycle mutation command aimed at a reservation, together with the
external-world outcomes during that request. -/
inductive LifeOp where
  | upd (p : Params) (env : Env)
  | cancel (p : Params) (env : Env)

/-- Run one lifecycle command and keep the resulting store (an escaped
exception also leaves its store in place). -/
def applyOp (rid : String) (r : Restaurant) (db : DB) : LifeOp → DB
  | .upd p env =>
      match updateBooking rid r p env db with
      | .ok _ db2 => db2
      | .exn _ db2 => db2
  | .cancel p env =>
      match cancelBooking rid r p env db with
      | .ok _ db2 => db2
      | .exn _ db2 => db2

/-- An update payload that does not carry an explicit `status` field. -/
def statusFree : LifeOp → Prop
  | .upd p _ => p.status = none
  | .cancel _ _ => True

/-- Reservation statuses evolve only towards `cancelled`: same row count
(no physical deletion), and each row keeps its status or has become
cancelled. -/
def statusEvolves (db db2 : DB) : Prop :=
  db2.bookings.length = db.bookings.length ∧
  ∀ (i : Nat) (h : i < db2.bookings.length) (h2 : i < db.bookings.length),
    (db2.bookings[i]).status = (db.bookings[i]).status ∨
    (db2.bookings[i]).status = "cancelled"

/-- The statuses are exactly unchanged. -/
def statusesEq (db db2 : DB) : Prop :=
  db2.bookings.map (fun b => b.status) = db.bookings.map (fun b => b.status)

theorem statusesEq_evolves {db db2 : DB} (h : statusesEq db db2) : statusEvolves db db2 := by
  have hlen : db2.bookings.map (fun b => b.status) = db.bookings.map (fun b => b.status) := h
  have hl : db2.bookings.length = db.bookings.length := by
    have := congrArg List.length hlen
    simpa using this
  refine ⟨hl, ?_⟩
  intro i h h2
  left
  have := congrArg (fun l => l.getD i "") hlen
  simp only [List.getD_eq_getElem?_getD] at this
  rw [List.getElem?_map, List.getElem?_map] at this
  rw [List.getElem?_eq_getElem h, List.getElem?_eq_getElem h2] at this
  simpa using this

theorem statusEvolves_refl (db : DB) : statusEvolves db db :=
  ⟨rfl, fun _ _ _ => Or.inl rfl⟩

theorem statusEvolves_trans {db1 db2 db3 : DB} (h12 : statusEvolves db1 db2)
    (h23 : statusEvolves db2 db3) : statusEvolves db1 db3 := by
  obtain ⟨hl12, hp12⟩ := h12
  obtain ⟨hl23, hp23⟩ := h23
  refine ⟨hl23.trans hl12, ?_⟩
  intro i h h2
  have hmid : i < db2.bookings.length := by omega
  rcases hp23 i h hmid with he | hc
  · rcases hp12 i hmid h2 with he2 | hc2
    · exact Or.inl (he.trans he2)
    · exact Or.inr (he.trans hc2)
  · exact Or.inr hc

theorem map_status_applyUpdates (l : List Booking) (q : Booking → Bool) (u : Params)
    (hst : u.status = none) :
    (l.map (fun b => if q b then applyUpdates u b else b)).map (fun b => b.status) =
      l.map (fun b => b.status) := by
  rw [List.map_map]
  apply List.map_congr_left
  intro b _
  by_cases hq : q b = true <;> simp [hq, applyUpdates, hst]

theorem effUpdates_status (p : Params) : (effUpdates p).status = p.status := by
  simp only [effUpdates, destructUpdates]
  by_cases ht : truthyS p.time = true <;> simp [ht]

/-- An update whose payload has no `status` field leaves every reservation's
status exactly as it was, in both the scoped and the fallback path. -/
theorem updateBooking_statusesEq (rid : String) (r : Restaurant) (p : Params) (env : Env)
    (db : DB) (hst : p.status = none) :
    statusesEq db (applyOp rid r db (.upd p env)) := by
  have hst2 : (effUpdates p).status = none := by rw [effUpdates_status, hst]
  cases hu : hasUnknownColumn (effUpdates p) with
  | true =>
      cases htr : truthyS (effUpdates p).id with
      | true =>
          simp only [applyOp, updateBooking, bind_apply, updateBookingsPayload, hu, if_true,
            pure_apply, listSingle, htr, Bool.not_true, Bool.and_false, Bool.false_eq_true,
            if_false]
          rfl
      | false =>
          simp only [applyOp, updateBooking, bind_apply, updateBookingsPayload, hu, if_true,
            pure_apply, listSingle, htr, Bool.not_false, Bool.and_true, Option.isNone_none,
            Bool.true_and]
          rfl
  | false =>
    have hkey1 := map_status_applyUpdates db.bookings
      (fun b => b.restaurant_id == rid && some b.confirmation_number == p.confirmationNumber)
      (effUpdates p) hst2
    simp only [applyOp, updateBooking, bind_apply, updateBookingsPayload, hu,
      Bool.false_eq_true, if_false, updateBookingsWhere_apply, pure_apply]
    by_cases hc : ((listSingle ((db.bookings.filter (fun b => b.restaurant_id == rid &&
        some b.confirmation_number == p.confirmationNumber)).map
          (applyUpdates (effUpdates p)))).isNone && !truthyS (effUpdates p).id) = true
    · simp only [hc, if_true, bind_apply, updateBookingsPayload, hu, Bool.false_eq_true,
        if_false, updateBookingsWhere_apply, pure_apply]
      set db1 : DB := { db with bookings := db.bookings.map (fun b =>
        if b.restaurant_id == rid && some b.confirmation_number == p.confirmationNumber
        then applyUpdates (effUpdates p) b else b) } with hdb1
      have hkey2 := map_status_applyUpdates db1.bookings
        (fun b => some b.confirmation_number == p.confirmationNumber) (effUpdates p) hst2
      cases hfb : listSingle ((db1.bookings.filter (fun b =>
          some b.confirmation_number == p.confirmationNumber)).map
            (applyUpdates (effUpdates p))) with
      | none =>
          simp only [hfb, pure_apply]
          show statusesEq db { db1 with bookings := db1.bookings.map _ }
          unfold statusesEq
          rw [hkey2]
          exact hkey1
      | some bk =>
          simp only [hfb, bind_apply, ubFanout_apply, pure_apply]
          show statusesEq db { db1 with bookings := db1.bookings.map _ }
          unfold statusesEq
          rw [hkey2]
          exact hkey1
    · simp only [hc, if_false, Bool.false_eq_true]
      cases hls : listSingle ((db.bookings.filter (fun b => b.restaurant_id == rid &&
          some b.confirmation_number == p.confirmationNumber)).map
            (applyUpdates (effUpdates p))) with
      | none =>
          simp only [hls, pure_apply]
          exact hkey1
      | some bk =>
          simp only [hls, bind_apply, ubFanout_apply, pure_apply]
          exact hkey1

theorem statusEvolves_map_cancel (db : DB) (q : Booking → Bool) :
    statusEvolves db { db with bookings := db.bookings.map (fun b =>
      if q b then { b with status := "cancelled" } else b) } := by
  refine ⟨by simp, ?_⟩
  intro i h h2
  simp only [List.getElem_map]
  by_cases hq : q db.bookings[i] = true
  · right
    simp [hq]
  · left
    simp [hq]

/-- A cancel keeps the row count (no deletion) and only moves statuses
towards `cancelled`. -/
theorem cancelBooking_statusEvolves (rid : String) (r : Restaurant) (p : Params) (env : Env)
    (db : DB) : statusEvolves db (applyOp rid r db (.cancel p env)) := by
  simp only [applyOp, cancelBooking, bind_apply, selectBookingSingle_apply, pure_apply]
  cases h1 : findSingle (fun b => b.restaurant_id == rid &&
      some b.confirmation_number == p.confirmationNumber) db.bookings with
  | none =>
      simp only [bind_apply, selectBookingSingle_apply, pure_apply]
      cases h2 : findSingle (fun b => some b.confirmation_number == p.confirmationNumber)
          db.bookings with
      | none => exact statusEvolves_refl db
      | some bk =>
          by_cases hce : env.cancelUpdateError = true
          · simp only [hce, if_true, pure_apply]
            exact statusEvolves_refl db
          · simp only [hce, if_false, Bool.false_eq_true, bind_apply,
              updateBookingsWhere_apply, canFanout_apply, pure_apply]
            exact statusEvolves_map_cancel db _
  | some bk =>
      by_cases hce : env.cancelUpdateError = true
      · simp only [hce, if_true, pure_apply]
        exact statusEvolves_refl db
      · simp only [hce, if_false, Bool.false_eq_true, bind_apply,
          updateBookingsWhere_apply, canFanout_apply, pure_apply]
        exact statusEvolves_map_cancel db _

/-- Counterexample to C3 as stated: an update payload carrying
`status: "confirmed"` is spread verbatim into the store write, so updating a
cancelled reservation with it flips the status back to confirmed — the code
does not protect the status column from update payloads. -/
theorem C3_status_resurrection_counterexample :
    updateBooking "rest-1" { id := "rest-1" }
      { confirmationNumber := some "TN-1", status := some "confirmed" } {}
      { restaurants := [],
        bookings := [{ id := "b1", restaurant_id := "rest-1",
                       confirmation_number := "TN-1", status := "cancelled" }],
        call_logs := [] } =
    .ok { success := some true, message := some "Your booking has been updated successfully." }
      { restaurants := [],
        bookings := [{ id := "b1", restaurant_id := "rest-1",
                       confirmation_number := "TN-1", status := "confirmed" }],
        call_logs := [] } := rfl

/-- C3 (amended): provided update payloads carry no explicit `status` field,
the status machine is as specified — an update never changes any
reservation's status (scoped or fallback path alike), a cancel never deletes
a row and only moves statuses towards `cancelled`, and over every sequence
of such update and cancel operations each reservation's status either stays
what it was or is `cancelled`; in particular a cancelled reservation is
never set back to confirmed. -/
theorem C3_status_transitions (rid : String) (r : Restaurant) :
    (∀ (p : Params) (env : Env) (db : DB), p.status = none →
      statusesEq db (applyOp rid r db (.upd p env))) ∧
    (∀ (p : Params) (env : Env) (db : DB),
      statusEvolves db (applyOp rid r db (.cancel p env))) ∧
    (∀ (ops : List LifeOp) (db : DB), (∀ op ∈ ops, statusFree op) →
      statusEvolves db (ops.foldl (applyOp rid r) db)) ∧
    (∀ (ops : List LifeOp) (db : DB), (∀ op ∈ ops, statusFree op) →
      ∀ (i : Nat) (h2 : i < db.bookings.length)
        (h : i < (ops.foldl (applyOp rid r) db).bookings.length),
        (db.bookings[i]).status = "cancelled" →
        ((ops.foldl (applyOp rid r) db).bookings[i]).status = "cancelled") := by
  have hseq : ∀ (ops : List LifeOp) (db : DB), (∀ op ∈ ops, statusFree op) →
      statusEvolves db (ops.foldl (applyOp rid r) db) := by
    intro ops
    induction ops with
    | nil => intro db _; exact statusEvolves_refl db
    | cons op t ih =>
        intro db hall
        rw [List.foldl_cons]
        have hstep : statusEvolves db (applyOp rid r db op) := by
          cases op with
          | upd p env =>
              have hsf : statusFree (LifeOp.upd p env) :=
                hall (LifeOp.upd p env) (List.mem_cons_self _ _)
              exact statusesEq_evolves (updateBooking_statusesEq rid r p env db hsf)
          | cancel p env => exact cancelBooking_statusEvolves rid r p env db
        exact statusEvolves_trans hstep
          (ih (applyOp rid r db op) (fun o ho => hall o (List.mem_cons_of_mem _ ho)))
  refine ⟨?_, ?_, hseq, ?_⟩
  · intro p env db hst
    exact updateBooking_statusesEq rid r p env db hst
  · intro p env db
    exact cancelBooking_statusEvolves rid r p env db
  · intro ops db hall i h2 h hcan
    obtain ⟨hl, hp⟩ := hseq ops db hall
    rcases hp i h h2 with he | hc
    · rw [he, hcan]
    · exact hc

/-- Witness for C3: a cancel then a status-free update on a store with one
confirmed reservation; the sequence only evolves statuses towards
cancelled. -/
theorem C3_status_transitions_witness :
    statusEvolves
      { restaurants := [],
        bookings := [{ id := "b1", restaurant_id := "rest-1",
                       confirmation_number := "TN-1", status := "confirmed" }],
        call_logs := [] }
      (([LifeOp.cancel { confirmationNumber := some "TN-1" } {},
         LifeOp.upd { confirmationNumber := some "TN-1", partySize := some 5 } {}]).foldl
        (applyOp "rest-1" { id := "rest-1" })
        { restaurants := [],
          bookings := [{ id := "b1", restaurant_id := "rest-1",
                         confirmation_number := "TN-1", status := "confirmed" }],
          call_logs := [] }) :=
  (C3_status_transitions "rest-1" { id := "rest-1" }).2.2.1
    [LifeOp.cancel { confirmationNumber := some "TN-1" } {},
     LifeOp.upd { confirmationNumber := some "TN-1", partySize := some 5 } {}]
    { restaurants := [],
      bookings := [{ id := "b1", restaurant_id := "rest-1",
                     confirmation_number := "TN-1", status := "confirmed" }],
      call_logs := [] }
    (by
      intro op hop
      simp only [List.mem_cons, List.mem_singleton] at hop
      rcases hop with rfl | rfl | hfalse
      · trivial
      · rfl
      · simp at hfalse)

/-!  ## Facts about the call-log upsert (claim C7) -/

theorem tailTry_apply (c : Bool) (e : Except String Unit) (db : DB) :
    (if c then tryM (callExc e) (fun _ => pure ()) else pure () : M Unit) db = .ok () db := by
  cases c with
  | false => rfl
  | true => cases e with
    | error m => rfl
    | ok u => cases u; rfl

/-- A call-ended event whose call id matches no stored row synthesizes one
completed row via the tenant lookup. -/
theorem handleCallEnded_insert (ev : Ev) (env : Env) (db : DB) (c : CallObj) (x : String)
    (rT : Restaurant)
    (hcall : ev.call = some c) (hcid : c.id = some x)
    (hnone : db.call_logs.filter (fun cl => cl.call_id == some x) = [])
    (hres : findSingle (fun rr => rr.vapi_phone_id == some (orEmptyS (cePhoneId ev)))
      db.restaurants = some rT) :
    handleCallEnded ev env db = .ok ()
      { db with call_logs := db.call_logs ++
          [{ restaurant_id := rT.id, call_id := some x,
             caller_number := c.customer.bind (fun cu => cu.number),
             status := "completed", duration := c.duration,
             transcript := ev.transcript,
             recording_url := ev.recording.bind (fun rc => rc.url),
             started_at := some (if truthyS c.startedAt then orEmptyS c.startedAt
               else env.synthStartedAt),
             ended_at := some env.now }] } := by
  have hmap := filter_nil_map_id db.call_logs (fun cl => cl.call_id == some x)
    (fun cl => { cl with
                 status := "completed", duration := c.duration,
                 transcript := ev.transcript,
                 recording_url := ev.recording.bind (fun rc => rc.url),
                 ended_at := some env.now }) hnone
  simp only [handleCallEnded, hcall, Option.some_bind, hcid, tryM_apply, bind_apply,
    updateCallLogsWhere_apply, hnone, List.map_nil, List.length_nil, gt_iff_lt,
    lt_self_iff_false, decide_False, Bool.not_false, if_true, resolveByPhone,
    selectRestaurantSingle_apply, hres, pure_apply, insertCallLog_apply, hmap,
    tailTry_apply]

/-- A call-ended event whose call id matches exactly one stored row updates
that row in place and inserts nothing. -/
theorem handleCallEnded_update (ev : Ev) (env : Env) (db : DB) (c : CallObj) (x : String)
    (row : CallLog)
    (hcall : ev.call = some c) (hcid : c.id = some x)
    (hhit : db.call_logs.filter (fun cl => cl.call_id == some x) = [row]) :
    handleCallEnded ev env db = .ok ()
      { db with call_logs := db.call_logs.map (fun cl =>
          if cl.call_id == some x then
            { cl with
              status := "completed", duration := c.duration,
              transcript := ev.transcript,
              recording_url := ev.recording.bind (fun rc => rc.url),
              ended_at := some env.now }
          else cl) } := by
  simp only [handleCallEnded, hcall, Option.some_bind, hcid, tryM_apply, bind_apply,
    updateCallLogsWhere_apply, hhit, List.map_cons, List.map_nil, List.length_cons,
    List.length_nil, gt_iff_lt, Nat.lt_add_one, decide_True, Bool.not_true,
    Bool.false_eq_true, if_false, tailTry_apply]

/-- C7: processing the same CallEnded event twice against a store with no
row for its external call id leaves exactly one CallLog row for that id,
with status completed: the handler updates by call id first and only
synthesizes a row (via the tenant lookup) when nothing was updated. -/
theorem C7_call_log_idempotent (ev : Ev) (env1 env2 : Env) (db : DB) (c : CallObj)
    (x : String) (rT : Restaurant)
    (hcall : ev.call = some c) (hcid : c.id = some x)
    (hnone : db.call_logs.filter (fun cl => cl.call_id == some x) = [])
    (hres : findSingle (fun rr => rr.vapi_phone_id == some (orEmptyS (cePhoneId ev)))
      db.restaurants = some rT) :
    ∃ row : CallLog,
      (match (do handleCallEnded ev env1; handleCallEnded ev env2 : M Unit) db with
        | .ok _ db2 => db2
        | .exn _ db2 => db2).call_logs.filter (fun cl => cl.call_id == some x) = [row] ∧
      row.status = "completed" := by
  have h1 := handleCallEnded_insert ev env1 db c x rT hcall hcid hnone hres
  set row1 : CallLog :=
    { restaurant_id := rT.id, call_id := some x,
      caller_number := c.customer.bind (fun cu => cu.number),
      status := "completed", duration := c.duration,
      transcript := ev.transcript,
      recording_url := ev.recording.bind (fun rc => rc.url),
      started_at := some (if truthyS c.startedAt then orEmptyS c.startedAt
        else env1.synthStartedAt),
      ended_at := some env1.now } with hrow1
  set db1 : DB := { db with call_logs := db.call_logs ++ [row1] } with hdb1
  have hpred1 : (row1.call_id == some x) = true := by
    rw [hrow1]
    simp
  have hhit1 : db1.call_logs.filter (fun cl => cl.call_id == some x) = [row1] := by
    rw [hdb1]
    simp only [List.filter_append, hnone, List.nil_append, List.filter_cons, hpred1,
      if_true, List.filter_nil]
  have h2 := handleCallEnded_update ev env2 db1 c x row1 hcall hcid hhit1
  refine ⟨{ row1 with
            status := "completed", duration := c.duration,
            transcript := ev.transcript,
            recording_url := ev.recording.bind (fun rc => rc.url),
            ended_at := some env2.now }, ?_, rfl⟩
  simp only [bind_apply, h1, h2]
  have hmapid := filter_nil_map_id db.call_logs (fun cl => cl.call_id == some x)
    (fun cl => { cl with
                 status := "completed", duration := c.duration,
                 transcript := ev.transcript,
                 recording_url := ev.recording.bind (fun rc => rc.url),
                 ended_at := some env2.now }) hnone
  simp only [hdb1, List.map_append, hmapid, List.map_cons, hpred1, if_true, List.map_nil,
    List.filter_append, hnone, List.nil_append, List.filter_cons, List.filter_nil]

/-- Witness for C7: a concrete tenant, an empty call-log store, and a
call-ended event for call id "X" processed twice. -/
theorem C7_call_log_idempotent_witness :
    ∃ row : CallLog,
      (match (do
          handleCallEnded { type := "call.ended",
                            call := some { id := some "X",
                                           phoneNumber := some { id := some "ph-1",
                                                                 number := some "+15551234567" } } } {}
          handleCallEnded { type := "call.ended",
                            call := some { id := some "X",
                                           phoneNumber := some { id := some "ph-1",
                                                                 number := some "+15551234567" } } } {}
          : M Unit)
          { restaurants := [{ id := "rest-2", vapi_phone_id := some "ph-1",
                              vapi_phone_number := some "+15551234567" }],
            bookings := [], call_logs := [] } with
        | .ok _ db2 => db2
        | .exn _ db2 => db2).call_logs.filter (fun cl => cl.call_id == some "X") = [row] ∧
      row.status = "completed" :=
  C7_call_log_idempotent
    { type := "call.ended",
      call := some { id := some "X",
                     phoneNumber := some { id := some "ph-1", number := some "+15551234567" } } }
    {} {}
    { restaurants := [{ id := "rest-2", vapi_phone_id := some "ph-1",
                        vapi_phone_number := some "+15551234567" }],
      bookings := [], call_logs := [] }
    { id := some "X", phoneNumber := some { id := some "ph-1", number := some "+15551234567" } }
    "X"
    { id := "rest-2", vapi_phone_id := some "ph-1", vapi_phone_number := some "+15551234567" }
    rfl rfl rfl rfl

/-!  ## Facts about tool-calls tenant resolution (claim C4) -/

/-- Counterexample to C4 as stated: a tenant reachable only through its
phone-number string.  The tool-calls event carries that number (and no
assistant or phone id), yet the handler answers per-tool-call
"Restaurant not found" — there is no phone-number-string tier on this path,
although the claimed fallback lookup would have found the tenant. -/
theorem C4_no_phone_number_fallback_counterexample :
    handleToolCalls
      { type := "tool-calls",
        phoneNumber := some { number := some "+15559999999" },
        toolCalls := [{ id := some "tc-2",
                        function := some { name := some "check_availability",
                                           arguments := some (.obj {}) } }] }
      {}
      { restaurants := [{ id := "rest-3", vapi_phone_number := some "+15559999999" }],
        bookings := [], call_logs := [] } =
      .ok { status := 200,
            body := .toolResultsOnly [{ toolCallId := some "tc-2",
                                        result := { error := some "Restaurant not found" } }] }
        { restaurants := [{ id := "rest-3", vapi_phone_number := some "+15559999999" }],
          bookings := [], call_logs := [] } ∧
    findSingle (fun r => r.vapi_phone_number == some "+15559999999")
      [({ id := "rest-3", vapi_phone_number := some "+15559999999" } : Restaurant)] =
      some { id := "rest-3", vapi_phone_number := some "+15559999999" } :=
  ⟨rfl, rfl⟩

/-- C4 (amended): tool-calls tenant resolution tries the assistant-id lookup
first and falls back only to the phone-number-id lookup; there is no
phone-number-string tier on this path.  Exactly one successful lookup wins,
and when both lookups fail the result is a 200 response carrying per-tool
"Restaurant not found" results (never an exception), regardless of any
phone-number-string match present in the store. -/
theorem C4_toolcalls_resolution (ev : Ev) (env : Env) (db : DB)
    (hne : (ev.toolCalls.length == 0) = false) :
    (∀ rA : Restaurant,
      findSingle (fun r => r.vapi_assistant_id == some (orEmptyS (assistantKey ev)))
        db.restaurants = some rA →
      handleToolCalls ev env db =
        (match runToolCalls rA env ev.toolCalls db with
         | .ok trs db2 => .ok { status := 200, body := .toolResultsFull trs } db2
         | .exn _ db2 => .ok { status := 500, body := .errorObj "Tool handling failed" } db2)) ∧
    (∀ rP : Restaurant,
      findSingle (fun r => r.vapi_assistant_id == some (orEmptyS (assistantKey ev)))
        db.restaurants = none →
      truthyS (phoneIdKey ev) = true →
      findSingle (fun r => r.vapi_phone_id == phoneIdKey ev) db.restaurants = some rP →
      handleToolCalls ev env db =
        (match runToolCalls rP env ev.toolCalls db with
         | .ok trs db2 => .ok { status := 200, body := .toolResultsFull trs } db2
         | .exn _ db2 => .ok { status := 500, body := .errorObj "Tool handling failed" } db2)) ∧
    (findSingle (fun r => r.vapi_assistant_id == some (orEmptyS (assistantKey ev)))
        db.restaurants = none →
      (truthyS (phoneIdKey ev) = false ∨
        findSingle (fun r => r.vapi_phone_id == phoneIdKey ev) db.restaurants = none) →
      handleToolCalls ev env db = .ok
        { status := 200,
          body := .toolResultsOnly (ev.toolCalls.map (fun tc =>
            { toolCallId := tc.id, result := { error := some "Restaurant not found" } })) }
        db) := by
  refine ⟨?_, ?_, ?_⟩
  · intro rA hA
    simp only [handleToolCalls, tryM_apply, bind_apply, pure_apply, hne, Bool.false_eq_true,
      if_false, resolveByAssistant, selectRestaurantSingle_apply, hA]
    cases hrun : runToolCalls rA env ev.toolCalls db with
    | ok trs db2 => rfl
    | exn e db2 => rfl
  · intro rP hA ht hP
    simp only [handleToolCalls, tryM_apply, bind_apply, pure_apply, hne, Bool.false_eq_true,
      if_false, resolveByAssistant, selectRestaurantSingle_apply, hA, ht, if_true, hP]
    cases hrun : runToolCalls rP env ev.toolCalls db with
    | ok trs db2 => rfl
    | exn e db2 => rfl
  · intro hA hP
    rcases hP with hP | hP
    · simp only [handleToolCalls, tryM_apply, bind_apply, pure_apply, hne, Bool.false_eq_true,
        if_false, resolveByAssistant, selectRestaurantSingle_apply, hA, hP]
    · by_cases ht : truthyS (phoneIdKey ev) = true
      · simp only [handleToolCalls, tryM_apply, bind_apply, pure_apply, hne,
          Bool.false_eq_true, if_false, resolveByAssistant, selectRestaurantSingle_apply,
          hA, ht, if_true, hP]
      · simp only [handleToolCalls, tryM_apply, bind_apply, pure_apply, hne,
          Bool.false_eq_true, if_false, resolveByAssistant, selectRestaurantSingle_apply,
          hA, ht]

/-- Witness for C4: the assistant-id lookup hits, so the batch runs against
that tenant and the response is the full tool payload. -/
theorem C4_toolcalls_resolution_witness :
    handleToolCalls
      { type := "tool-calls", assistantId := some "asst-1",
        toolCalls := [{ id := some "tc-9",
                        function := some { name := some "answer_question",
                                           arguments := some (.obj {}) } }] }
      {}
      { restaurants := [{ id := "rest-1", vapi_assistant_id := some "asst-1" }],
        bookings := [], call_logs := [] } =
      (match runToolCalls { id := "rest-1", vapi_assistant_id := some "asst-1" } {}
          [{ id := some "tc-9",
             function := some { name := some "answer_question",
                                arguments := some (.obj {}) } }]
          { restaurants := [{ id := "rest-1", vapi_assistant_id := some "asst-1" }],
            bookings := [], call_logs := [] } with
       | .ok trs db2 => .ok { status := 200, body := .toolResultsFull trs } db2
       | .exn _ db2 => .ok { status := 500, body := .errorObj "Tool handling failed" } db2) :=
  (C4_toolcalls_resolution
    { type := "tool-calls", assistantId := some "asst-1",
      toolCalls := [{ id := some "tc-9",
                      function := some { name := some "answer_question",
                                         arguments := some (.obj {}) } }] }
    {}
    { restaurants := [{ id := "rest-1", vapi_assistant_id := some "asst-1" }],
      bookings := [], call_logs := [] } rfl).1
    { id := "rest-1", vapi_assistant_id := some "asst-1" } rfl

/-!  ## Facts about the webhook response discipline (claim C1) -/

/-- The documented response shapes of the webhook path: a 200 carrying
`received:true`, a tool-results payload or a bare function result, or a 500
carrying an error object. -/
def respWF (resp : Resp) : Prop :=
  (resp.status = 200 ∧
    (resp.body = .received ∨ (∃ l, resp.body = .toolResultsOnly l) ∨
      (∃ l, resp.body = .toolResultsFull l) ∨ (∃ r, resp.body = .fnResult r))) ∨
  (resp.status = 500 ∧ ∃ m, resp.body = .errorObj m)

theorem handleToolCalls_wf (ev : Ev) (env : Env) : MSat (handleToolCalls ev env) respWF := by
  intro db
  cases hc : (ev.toolCalls.length == 0) with
  | true =>
      simp only [handleToolCalls, tryM_apply, hc, if_true, pure_apply]
      exact Or.inl ⟨rfl, Or.inr (Or.inl ⟨_, rfl⟩)⟩
  | false =>
      cases hr1 : findSingle (fun r => r.vapi_assistant_id == some (orEmptyS (assistantKey ev)))
          db.restaurants with
      | some rA =>
          simp only [handleToolCalls, tryM_apply, bind_apply, pure_apply, hc, Bool.false_eq_true,
            if_false, resolveByAssistant, selectRestaurantSingle_apply, hr1]
          cases hrun : runToolCalls rA env ev.toolCalls db with
          | ok trs db2 => exact Or.inl ⟨rfl, Or.inr (Or.inr (Or.inl ⟨_, rfl⟩))⟩
          | exn e db2 => exact Or.inr ⟨rfl, _, rfl⟩
      | none =>
          cases ht : truthyS (phoneIdKey ev) with
          | false =>
              simp only [handleToolCalls, tryM_apply, bind_apply, pure_apply, hc,
                Bool.false_eq_true, if_false, resolveByAssistant, selectRestaurantSingle_apply,
                hr1, ht]
              exact Or.inl ⟨rfl, Or.inr (Or.inl ⟨_, rfl⟩)⟩
          | true =>
              cases hr2 : findSingle (fun r => r.vapi_phone_id == phoneIdKey ev)
                  db.restaurants with
              | none =>
                  simp only [handleToolCalls, tryM_apply, bind_apply, pure_apply, hc,
                    Bool.false_eq_true, if_false, resolveByAssistant,
                    selectRestaurantSingle_apply, hr1, ht, if_true, hr2]
                  exact Or.inl ⟨rfl, Or.inr (Or.inl ⟨_, rfl⟩)⟩
              | some rP =>
                  simp only [handleToolCalls, tryM_apply, bind_apply, pure_apply, hc,
                    Bool.false_eq_true, if_false, resolveByAssistant,
                    selectRestaurantSingle_apply, hr1, ht, if_true, hr2]
                  cases hrun : runToolCalls rP env ev.toolCalls db with
                  | ok trs db2 => exact Or.inl ⟨rfl, Or.inr (Or.inr (Or.inl ⟨_, rfl⟩))⟩
                  | exn e db2 => exact Or.inr ⟨rfl, _, rfl⟩

theorem handleFunctionCall_wf (ev : Ev) (env : Env) : MSat (handleFunctionCall ev env) respWF := by
  intro db
  cases hcall : ev.call with
  | none =>
      simp only [handleFunctionCall, hcall, throwM_apply]
  | some call =>
      cases haid : call.assistantId with
      | none =>
          simp only [handleFunctionCall, hcall, haid, bind_apply, pure_apply]
          exact Or.inl ⟨rfl, Or.inr (Or.inr (Or.inr ⟨_, rfl⟩))⟩
      | some aid =>
          cases hfs : findSingle (fun r => r.vapi_assistant_id == some aid) db.restaurants with
          | none =>
              simp only [handleFunctionCall, hcall, haid, bind_apply,
                selectRestaurantSingle_apply, hfs, pure_apply]
              exact Or.inl ⟨rfl, Or.inr (Or.inr (Or.inr ⟨_, rfl⟩))⟩
          | some restaurant =>
              cases hex : executeFunctionCall ev.functionName restaurant ev.parameters env db with
              | ok result db2 =>
                  simp only [handleFunctionCall, hcall, haid, bind_apply,
                    selectRestaurantSingle_apply, hfs, hex, pure_apply]
                  exact Or.inl ⟨rfl, Or.inr (Or.inr (Or.inr ⟨_, rfl⟩))⟩
              | exn e db2 =>
                  simp only [handleFunctionCall, hcall, haid, bind_apply,
                    selectRestaurantSingle_apply, hfs, hex, pure_apply]

theorem handleCallEnded_total (ev : Ev) (env : Env) : MTotal (handleCallEnded ev env) := by
  unfold handleCallEnded
  exact MTotal_tryM (fun _ => MTotal_pure ())

theorem dispatchEvent_cases (ev : Ev) (env : Env) :
    dispatchEvent ev env =
        (do handleCallStarted ev env; pure { status := 200, body := .received }) ∨
    dispatchEvent ev env =
        (do handleCallEnded ev env; pure { status := 200, body := .received }) ∨
    dispatchEvent ev env = handleToolCalls ev env ∨
    dispatchEvent ev env = handleFunctionCall ev env ∨
    dispatchEvent ev env = pure { status := 200, body := .received } := by
  unfold dispatchEvent
  split
  · exact Or.inl rfl
  · exact Or.inr (Or.inl rfl)
  · exact Or.inr (Or.inr (Or.inl rfl))
  · exact Or.inr (Or.inr (Or.inr (Or.inl rfl)))
  · exact Or.inr (Or.inl rfl)
  · exact Or.inr (Or.inr (Or.inr (Or.inr rfl)))

theorem dispatchEvent_wf (ev : Ev) (env : Env) : MSat (dispatchEvent ev env) respWF := by
  rcases dispatchEvent_cases ev env with h | h | h | h | h <;> rw [h]
  · apply MSat_bind (MSat_ofAll _ (fun _ => trivial))
    intro a _
    exact MSat_pure (Or.inl ⟨rfl, Or.inl rfl⟩)
  · apply MSat_bind (MSat_ofAll _ (fun _ => trivial))
    intro a _
    exact MSat_pure (Or.inl ⟨rfl, Or.inl rfl⟩)
  · exact handleToolCalls_wf ev env
  · exact handleFunctionCall_wf ev env
  · exact MSat_pure (Or.inl ⟨rfl, Or.inl rfl⟩)

/-- Counterexample to C1 as stated: a tool-calls event whose create-booking
call hits a failing guest notifier.  The notifier's throw escapes the
booking path into the tool-calls catch, which answers HTTP 500 with an error
object — not a 200 with in-band error detail. -/
theorem C1_exception_500_counterexample :
    (webhook
      { self := { type := "tool-calls", assistantId := some "asst-1",
                  toolCalls := [{ id := some "tc-1",
                                  function := some { name := some "create_booking",
                                                     arguments := some (.obj
                                                       { date := some "2026-02-01",
                                                         time := some "7:30 PM",
                                                         partySize := some 4,
                                                         guestName := some "John Smith",
                                                         guestEmail := some "j@x.com" }) } }] } }
      { mailGuest := .error "SMTP down" }
      { restaurants := [{ id := "rest-1", name := some "Theemris",
                          vapi_assistant_id := some "asst-1" }],
        bookings := [], call_logs := [] }).1 =
      { status := 500, body := .errorObj "Tool handling failed" } := rfl

/-- C1 (amended): every webhook response is either HTTP 200 with one of the
documented payload shapes (`received:true`, a tool-results payload, a bare
function result) or HTTP 500 with an error object — and the 500s are real:
they arise from the router catch and the tool-calls catch.  The always-200
guarantee does hold for call-ended, end-of-call-report and unrecognized
event types, whose responses are exactly 200 `received:true`; the 500 paths
are confined to call-started, tool-calls and function-call handling. -/
theorem C1_response_discipline (raw : Raw) (env : Env) (db : DB) :
    respWF (webhook raw env db).1 ∧
    ((unwrapEvent raw).type ≠ "call.started" → (unwrapEvent raw).type ≠ "tool-calls" →
      (unwrapEvent raw).type ≠ "function-call" →
      ∃ db2, webhook raw env db = ({ status := 200, body := .received }, db2)) := by
  constructor
  · have h2 := dispatchEvent_wf (unwrapEvent raw) env db
    unfold webhook
    cases hd : dispatchEvent (unwrapEvent raw) env db with
    | ok resp db2 =>
        rw [hd] at h2
        exact h2
    | exn e db2 => exact Or.inr ⟨rfl, "Webhook processing failed", rfl⟩
  · intro h1 h2 h3
    have hdisp : dispatchEvent (unwrapEvent raw) env =
        (do handleCallEnded (unwrapEvent raw) env
            pure { status := 200, body := .received }) ∨
        dispatchEvent (unwrapEvent raw) env = pure { status := 200, body := .received } := by
      unfold dispatchEvent
      split
      · next heq => exact absurd heq h1
      · exact Or.inl rfl
      · next heq => exact absurd heq h2
      · next heq => exact absurd heq h3
      · exact Or.inl rfl
      · exact Or.inr rfl
    rcases hdisp with hdisp | hdisp
    · obtain ⟨u, db2, hce⟩ := handleCallEnded_total (unwrapEvent raw) env db
      refine ⟨db2, ?_⟩
      unfold webhook
      rw [hdisp, bind_apply, hce]
    · refine ⟨db, ?_⟩
      unfold webhook
      rw [hdisp, pure_apply]

/-- Witness for C1: a call-ended event is answered 200 `received:true`. -/
theorem C1_response_discipline_witness :
    ∃ db2,
      webhook { self := { type := "call.ended" } } {}
        { restaurants := [], bookings := [], call_logs := [] } =
        ({ status := 200, body := .received }, db2) :=
  (C1_response_discipline { self := { type := "call.ended" } } {}
      { restaurants := [], bookings := [], call_logs := [] }).2
    (by decide) (by decide) (by decide)

end TableNow
